import Mathlib

/-!
# FaceAWSV1: the face registration / authentication / verification routes

A shallow embedding of `src/routes/faceRoutes.js` together with the three
collaborators it drives (`src/services/rekognitionService.js`,
`src/services/s3Service.js`, `src/models/User.js`).

* Every `async` function of the source is a computation in the monad `M`:
  a function from a `World` to a result (a value or a thrown `JsError`) and the
  next `World`.  A thrown error keeps the world reached so far.
* The `World` is the `users` collection of the document store plus the ordered
  log of every service-method call, each with its outcome.
* What lives outside the repository (the AWS SDK clients, the MongoDB driver's
  failures, `uuidv4`, the clock, `parseFloat`, `parseInt`, `toLowerCase`) is a
  field of `Env`.  The SDK, the driver, `uuidv4` and the clock may answer
  differently at every point of the run: they are functions of the `World`.
-/

namespace FaceAWS

/-! ## JavaScript values -/

/-- A thrown JavaScript `Error`: the two fields the source reads. -/
structure JsError where
  name : String
  message : String
deriving DecidableEq, Repr

/-- The value of `new Error(message)`. -/
def JsError.new (message : String) : JsError := { name := "Error", message := message }

/-- A JavaScript number as produced by `parseFloat` / `parseInt` and as carried
in provider responses: `NaN`, an infinity, or a finite value. -/
inductive JsNumber where
  | nan
  | inf (negative : Bool)
  | num (v : ℚ)
deriving DecidableEq, Repr

/-- JavaScript truthiness of a number: `NaN`, `0` and `-0` are falsy. -/
def JsNumber.truthy : JsNumber → Bool
  | .nan => false
  | .inf _ => true
  | .num v => decide (v ≠ 0)

/-- The expression `x || d` on numbers. -/
def JsNumber.orElse (x d : JsNumber) : JsNumber := if x.truthy then x else d

/-- JavaScript truthiness of a possibly absent string: `undefined`, `null` and
the empty string are falsy. -/
def truthyStr : Option String → Bool
  | none => false
  | some s => decide (s ≠ "")

/-- A value that is a string, `null` or `undefined`: the correlation id of a
stored record and the `ExternalImageId` of a provider face, which the source
compares with `===`.  On these values `===` is equality: two strings with the
same characters, `null` with `null`, `undefined` with `undefined`, and nothing
else. -/
inductive JsStr where
  | undefined
  | null
  | str (s : String)
deriving DecidableEq, Repr

/-- The characters matched by `\s` and removed by `String.prototype.trim`
(ECMAScript WhiteSpace and LineTerminator). -/
def isJsSpace (c : Char) : Bool :=
  let n := c.toNat
  n = 0x09 || n = 0x0A || n = 0x0B || n = 0x0C || n = 0x0D || n = 0x20 || n = 0xA0 ||
  n = 0x1680 || (0x2000 ≤ n && n ≤ 0x200A) || n = 0x2028 || n = 0x2029 || n = 0x202F ||
  n = 0x205F || n = 0x3000 || n = 0xFEFF

/-- The method `String.prototype.trim`. -/
def jsTrim (s : String) : String :=
  ⟨((s.data.dropWhile isJsSpace).reverse.dropWhile isJsSpace).reverse⟩

/-- The characters of `s.replace(/\s+/g, '-')`: every maximal run of white space
becomes one `-`.  `inRun` says that the previous character was white space. -/
def replaceSpaceRuns (inRun : Bool) : List Char → List Char
  | [] => []
  | c :: cs =>
    if isJsSpace c then
      if inRun then replaceSpaceRuns true cs else '-' :: replaceSpaceRuns true cs
    else c :: replaceSpaceRuns false cs

/-- The method `String.prototype.includes`. -/
def jsIncludes (s sub : String) : Bool :=
  s.data.tails.any (fun t => sub.data.isPrefixOf t)

/-- The bytes of an uploaded image (`req.file.buffer`). -/
abbrev Buffer := List UInt8

/-! ## Provider data (AWS Rekognition / S3) -/

structure BoundingBox where
  Width : ℚ
  Height : ℚ
  Left : ℚ
  Top : ℚ
deriving DecidableEq, Repr

/-- An entry of `FaceDetails`; the routes only count them. -/
structure FaceDetail where
  BoundingBox : Option BoundingBox := none
  Confidence : Option ℚ := none
deriving DecidableEq, Repr

/-- The `Face` object of a face record or a face match. -/
structure Face where
  FaceId : Option String := none
  BoundingBox : Option BoundingBox := none
  Confidence : Option ℚ := none
  ImageId : Option String := none
  ExternalImageId : JsStr := .undefined
deriving DecidableEq, Repr

structure FaceRecord where
  Face : Face
deriving DecidableEq, Repr

structure UnindexedFace where
  Reasons : Option (List String) := none
deriving DecidableEq, Repr

structure FaceMatch where
  Similarity : Option ℚ := none
  Face : Face
deriving DecidableEq, Repr

/-- The commands the Rekognition gateway sends. -/
inductive RekCommand where
  | ListCollections
  | CreateCollection (CollectionId : String)
  | DetectFaces (Bytes : Buffer)
  | IndexFaces (CollectionId Bucket Name ExternalImageId : String) (MaxFaces : Nat)
  | SearchFacesByImage (CollectionId : String) (Bytes : Buffer) (MaxFaces : Nat)
      (FaceMatchThreshold : JsNumber)
  | DeleteFaces (CollectionId : String) (FaceIds : List String)
deriving DecidableEq, Repr

/-- A Rekognition response, duck-typed as in the source: every field the
gateway reads may be absent. -/
structure RekResponse where
  CollectionIds : Option (List String) := none
  FaceDetails : Option (List FaceDetail) := none
  FaceRecords : Option (List FaceRecord) := none
  UnindexedFaces : Option (List UnindexedFace) := none
  SearchedFaceBoundingBox : Option BoundingBox := none
  SearchedFaceConfidence : Option ℚ := none
  FaceMatches : Option (List FaceMatch) := none
  DeletedFaces : Option (List String) := none
deriving DecidableEq, Repr

/-- The commands the S3 gateway sends. -/
inductive S3Command where
  | PutObject (Bucket Key : String) (Body : Buffer) (ContentType : String)
  | DeleteObject (Bucket Key : String)
  | GetObject (Bucket Key : String)
deriving DecidableEq, Repr

/-! ## The user record -/

/-- A document of the `users` collection (`UserModel.create`).  The
correlation id `faceId` keeps `null` apart from an absent field, since the
verify route compares it with `===`; of the other optional fields the source
only reads the truthiness or copies the value, and for them an absent or `null`
field is `none`. -/
structure User where
  _id : String
  name : String
  faceId : JsStr
  s3ImageKey : Option String
  s3ImageUrl : Option String
  rekognitionFaceId : Option String
  boundingBox : Option BoundingBox
  confidence : Option ℚ
  createdAt : Nat
  updatedAt : Nat
deriving DecidableEq, Repr

/-- The argument of `UserModel.create`. -/
structure UserData where
  name : String
  faceId : JsStr
  s3ImageKey : Option String
  s3ImageUrl : Option String
  rekognitionFaceId : Option String
  boundingBox : Option BoundingBox
  confidence : Option ℚ
deriving DecidableEq, Repr

/-- The filter documents the model passes to the driver. -/
inductive Query where
  | byId (id : String)
  | byFaceId (faceId : JsStr)
deriving DecidableEq, Repr

/-- Whether a document satisfies a filter.  A string matches the documents
whose field is that string.  The driver writes an `undefined` filter value as
`null`, and the filter `{ faceId: null }` matches the documents whose field is
`null` or absent. -/
def Query.matches : Query → User → Bool
  | .byId id, u => decide (u._id = id)
  | .byFaceId (.str faceId), u => decide (u.faceId = .str faceId)
  | .byFaceId _, u => decide (u.faceId = .null ∨ u.faceId = .undefined)

/-- The driver operations the model performs on the `users` collection. -/
inductive DbOp where
  | insertOne (doc : User)
  | findOne (q : Query)
  | find (limit skip : Int)
  | countDocuments
  | deleteOne (q : Query)
deriving DecidableEq, Repr

/-! ## Calls, events and the world -/

/-- A call of a service or model method, with its arguments. -/
inductive Call where
  | ensureCollectionExists
  | detectFaces (imageBuffer : Buffer)
  | indexFace (s3Key externalImageId : String)
  | searchFacesByImage (imageBuffer : Buffer) (maxFaces : Nat) (faceMatchThreshold : JsNumber)
  | deleteFace (faceId : String)
  | uploadImage (imageBuffer : Buffer) (fileName contentType : String)
  | deleteImage (key : String)
  | create (userData : UserData)
  | findById (id : String)
  | findByFaceId (faceId : JsStr)
  | findAll (limit skip : Int)
  | count
  | deleteById (id : String)
deriving DecidableEq, Repr

/-- What the log records: a method was entered, it returned, or it threw. -/
inductive Event where
  | call (c : Call)
  | ok (c : Call)
  | err (c : Call) (e : JsError)
deriving DecidableEq, Repr

/-- The state a request runs in: the `users` collection in insertion order and
the log of method calls so far. -/
structure World where
  users : List User
  trace : List Event
deriving DecidableEq, Repr

/-- Append an event to the log. -/
def World.log (w : World) (e : Event) : World := { w with trace := w.trace ++ [e] }

/-- The events logged between the world `w` and the later world `w'`. -/
def eventsSince (w w' : World) : List Event := w'.trace.drop w.trace.length

/-- The configuration `AWS_CONFIG` and everything outside the repository. -/
structure Env where
  s3Bucket : String
  rekognitionCollectionId : String
  region : String
  /-- The call `rekognitionClient.send(command)` -/
  rekognitionSend : World → RekCommand → Except JsError RekResponse
  /-- The call `s3Client.send(command)`: whether it throws -/
  s3Send : World → S3Command → Except JsError Unit
  /-- Whether `getDatabase()` or the driver operation throws -/
  dbFail : World → DbOp → Option JsError
  /-- The call `uuidv4()` -/
  uuidv4 : World → String
  /-- The calls `Date.now()` and `new Date()`, in milliseconds; the second argument
  numbers the readings taken at one point of the run -/
  clock : World → Nat → Nat
  /-- The value `parseFloat` gives for a possibly absent request field -/
  parseFloat : Option String → JsNumber
  /-- The value `parseInt` gives for a possibly absent request field: `none` is `NaN` -/
  parseInt : Option String → Option Int
  /-- The method `String.prototype.toLowerCase` -/
  toLowerCase : String → String

/-! ## The monad of `async` functions -/

/-- An `async` function body: from a world to a value or a thrown error, and
the world reached. -/
def M (α : Type) : Type := World → Except JsError α × World

namespace M

/-- Return a value. -/
def ret {α : Type} (a : α) : M α := fun w => (.ok a, w)

/-- The statement `throw e`. -/
def throw {α : Type} (e : JsError) : M α := fun w => (.error e, w)

/-- Sequencing (`await`): a thrown error skips the continuation. -/
def andThen {α β : Type} (m : M α) (f : α → M β) : M β := fun w =>
  match m w with
  | (.ok a, w') => f a w'
  | (.error e, w') => (.error e, w')

/-- The statement `try { body } catch (e) { handler(e) }`. -/
def tryCatch {α : Type} (body : M α) (handler : JsError → M α) : M α := fun w =>
  match body w with
  | (.ok a, w') => (.ok a, w')
  | (.error e, w') => handler e w'

/-- Read an oracle of the environment at the current world. -/
def ask {α : Type} (f : World → α) : M α := fun w => (.ok (f w), w)

/-- Lift a call that may throw and leaves the world as it is. -/
def lift {α : Type} (f : World → Except JsError α) : M α := fun w => (f w, w)

/-- Run `body` as the method call `c`: log the entry, then the outcome. -/
def logged {α : Type} (c : Call) (body : M α) : M α := fun w =>
  match body (w.log (.call c)) with
  | (.ok a, w') => (.ok a, w'.log (.ok c))
  | (.error e, w') => (.error e, w'.log (.err c e))

/-- The statement `if (field) { await body(field); }` on a possibly absent
string field: the body runs when the field is truthy. -/
def whenTruthy {α : Type} (field : Option String) (body : String → M α) : M Unit :=
  match field with
  | none => ret ()
  | some s => if s = "" then ret () else andThen (body s) (fun _ => ret ())

end M

instance : Monad M where
  pure := M.ret
  bind := M.andThen

/-! ## The MongoDB driver on the `users` collection -/

namespace Db

/-- The call `insertOne(doc)`: the document is appended. -/
def insertOne (env : Env) (doc : User) : M Unit := fun w =>
  match env.dbFail w (.insertOne doc) with
  | some e => (.error e, w)
  | none => (.ok (), { w with users := w.users ++ [doc] })

/-- The call `findOne(filter)`: the first matching document, or `null`. -/
def findOne (env : Env) (q : Query) : M (Option User) := fun w =>
  match env.dbFail w (.findOne q) with
  | some e => (.error e, w)
  | none => (.ok (w.users.find? q.matches), w)

/-- The call `deleteOne(filter)`: the first matching document is removed. -/
def deleteOne (env : Env) (q : Query) : M Unit := fun w =>
  match env.dbFail w (.deleteOne q) with
  | some e => (.error e, w)
  | none => (.ok (), { w with users := w.users.eraseP q.matches })

/-- The call `countDocuments()`. -/
def countDocuments (env : Env) : M Nat := fun w =>
  match env.dbFail w .countDocuments with
  | some e => (.error e, w)
  | none => (.ok w.users.length, w)

/-- The documents in the order of `sort({ createdAt: -1 })`: newest first. -/
def newestFirst (users : List User) : List User :=
  users.insertionSort (fun a b => b.createdAt ≤ a.createdAt)

/-- The cursor `find({}).sort({ createdAt: -1 }).skip(skip).limit(limit).toArray()`.
The window follows the driver: a negative `skip` is refused, a `limit` of `0`
is no limit and a negative `limit` is its absolute value. -/
def find (env : Env) (limit skip : Int) : M (List User) := fun w =>
  match env.dbFail w (.find limit skip) with
  | some e => (.error e, w)
  | none =>
    if skip < 0 then
      (.error { name := "MongoServerError", message := "Skip value must be non-negative" }, w)
    else
      let rest := (newestFirst w.users).drop skip.toNat
      (.ok (if limit = 0 then rest else rest.take limit.natAbs), w)

end Db

/-! ## `src/models/User.js` -/

namespace UserModel

/-- The method `UserModel.create(userData)`. -/
def create (env : Env) (userData : UserData) : M User :=
  M.logged (.create userData) do
    let _id ← M.ask env.uuidv4
    let createdAt ← M.ask (fun w => env.clock w 0)
    let updatedAt ← M.ask (fun w => env.clock w 1)
    let user : User :=
      { _id := _id
        name := userData.name
        faceId := userData.faceId
        s3ImageKey := userData.s3ImageKey
        s3ImageUrl := userData.s3ImageUrl
        rekognitionFaceId := userData.rekognitionFaceId
        boundingBox := userData.boundingBox
        -- `userData.confidence || null`
        confidence := userData.confidence.filter (fun c => decide (c ≠ 0))
        createdAt := createdAt
        updatedAt := updatedAt }
    Db.insertOne env user
    pure user

/-- The method `UserModel.findById(id)`. -/
def findById (env : Env) (id : String) : M (Option User) :=
  M.logged (.findById id) (Db.findOne env (.byId id))

/-- The method `UserModel.findByFaceId(faceId)`. -/
def findByFaceId (env : Env) (faceId : JsStr) : M (Option User) :=
  M.logged (.findByFaceId faceId) (Db.findOne env (.byFaceId faceId))

/-- The method `UserModel.findAll({ limit, skip })`. -/
def findAll (env : Env) (limit skip : Int) : M (List User) :=
  M.logged (.findAll limit skip) (Db.find env limit skip)

/-- The method `UserModel.count()`. -/
def count (env : Env) : M Nat :=
  M.logged .count (Db.countDocuments env)

/-- The method `UserModel.deleteById(id)`. -/
def deleteById (env : Env) (id : String) : M Unit :=
  M.logged (.deleteById id) (Db.deleteOne env (.byId id))

end UserModel

/-! ## `src/services/rekognitionService.js` -/

/-- The call `rekognitionClient.send(command)`. -/
def rekognitionClientSend (env : Env) (command : RekCommand) : M RekResponse :=
  M.lift (fun w => env.rekognitionSend w command)

/-- The call `s3Client.send(command)`. -/
def s3ClientSend (env : Env) (command : S3Command) : M Unit :=
  M.lift (fun w => env.s3Send w command)

/-- What `RekognitionService.indexFace` returns. -/
structure IndexFaceResult where
  faceId : Option String
  boundingBox : Option BoundingBox
  confidence : Option ℚ
  imageId : Option String
  externalImageId : JsStr
deriving DecidableEq, Repr

/-- What `RekognitionService.searchFacesByImage` returns; `error` is absent on
the success path. -/
structure SearchResult where
  searchedFaceBoundingBox : Option BoundingBox
  searchedFaceConfidence : Option ℚ
  faceMatches : List FaceMatch
  error : Option String := none
deriving DecidableEq, Repr

namespace RekognitionService

/-- The method `RekognitionService.ensureCollectionExists()`; it returns the
collection id. -/
def ensureCollectionExists (env : Env) : M String :=
  M.logged .ensureCollectionExists
    (M.tryCatch
      (do
        let response ← rekognitionClientSend env .ListCollections
        -- `response.CollectionIds?.includes(...)`
        let collectionExists :=
          match response.CollectionIds with
          | none => false
          | some ids => ids.contains env.rekognitionCollectionId
        if collectionExists then
          pure env.rekognitionCollectionId
        else do
          let _ ← rekognitionClientSend env (.CreateCollection env.rekognitionCollectionId)
          pure env.rekognitionCollectionId)
      (fun error => M.throw error))

/-- The method `RekognitionService.detectFaces(imageBuffer)`. -/
def detectFaces (env : Env) (imageBuffer : Buffer) : M (List FaceDetail) :=
  M.logged (.detectFaces imageBuffer) do
    let response ← rekognitionClientSend env (.DetectFaces imageBuffer)
    pure (response.FaceDetails.getD [])

/-- The message of the error thrown for the first unindexed face:
`Reasons?.join(', ') || 'Unknown reason'` after the fixed prefix. -/
def unindexedMessage (u : UnindexedFace) : String :=
  let joined : Option String := u.Reasons.map (fun rs => ", ".intercalate rs)
  let reason := if truthyStr joined then joined.getD "" else "Unknown reason"
  "Face could not be indexed: " ++ reason

/-- The method `RekognitionService.indexFace(s3Key, externalImageId)`. -/
def indexFace (env : Env) (s3Key externalImageId : String) : M IndexFaceResult :=
  M.logged (.indexFace s3Key externalImageId) do
    let _ ← ensureCollectionExists env
    let response ← rekognitionClientSend env
      (.IndexFaces env.rekognitionCollectionId env.s3Bucket s3Key externalImageId 1)
    match response.FaceRecords.getD [] with
    | [] =>
      match response.UnindexedFaces.getD [] with
      | u :: _ => M.throw (JsError.new (unindexedMessage u))
      | [] => M.throw (JsError.new "No face detected in the image")
    | faceRecord :: _ =>
      pure
        { faceId := faceRecord.Face.FaceId
          boundingBox := faceRecord.Face.BoundingBox
          confidence := faceRecord.Face.Confidence
          imageId := faceRecord.Face.ImageId
          externalImageId := faceRecord.Face.ExternalImageId }

/-- The method `RekognitionService.searchFacesByImage(imageBuffer, maxFaces,
faceMatchThreshold)`. -/
def searchFacesByImage (env : Env) (imageBuffer : Buffer) (maxFaces : Nat)
    (faceMatchThreshold : JsNumber) : M SearchResult :=
  M.logged (.searchFacesByImage imageBuffer maxFaces faceMatchThreshold) do
    let _ ← ensureCollectionExists env
    M.tryCatch
      (do
        let response ← rekognitionClientSend env
          (.SearchFacesByImage env.rekognitionCollectionId imageBuffer maxFaces faceMatchThreshold)
        pure
          { searchedFaceBoundingBox := response.SearchedFaceBoundingBox
            searchedFaceConfidence := response.SearchedFaceConfidence
            faceMatches := response.FaceMatches.getD [] })
      (fun error =>
        if error.name = "InvalidParameterException" ∧ jsIncludes error.message "no faces" then
          pure
            { searchedFaceBoundingBox := none
              searchedFaceConfidence := none
              faceMatches := []
              error := some "No face detected in the provided image" }
        else M.throw error)

/-- The method `RekognitionService.deleteFace(faceId)`; it returns
`response.DeletedFaces || []`. -/
def deleteFace (env : Env) (faceId : String) : M (List String) :=
  M.logged (.deleteFace faceId) do
    let response ← rekognitionClientSend env
      (.DeleteFaces env.rekognitionCollectionId [faceId])
    pure (response.DeletedFaces.getD [])

end RekognitionService

/-! ## `src/services/s3Service.js` -/

/-- What `S3Service.uploadImage` returns. -/
structure UploadResult where
  key : String
  url : String
  bucket : String
deriving DecidableEq, Repr

namespace S3Service

/-- The method `S3Service.uploadImage(imageBuffer, fileName, contentType)`. -/
def uploadImage (env : Env) (imageBuffer : Buffer) (fileName contentType : String) :
    M UploadResult :=
  M.logged (.uploadImage imageBuffer fileName contentType) do
    let uuid ← M.ask env.uuidv4
    let key := "faces/" ++ uuid ++ "-" ++ fileName
    s3ClientSend env (.PutObject env.s3Bucket key imageBuffer contentType)
    let imageUrl :=
      "https://" ++ env.s3Bucket ++ ".s3." ++ env.region ++ ".amazonaws.com/" ++ key
    pure { key := key, url := imageUrl, bucket := env.s3Bucket }

/-- The method `S3Service.deleteImage(key)`; it returns the key. -/
def deleteImage (env : Env) (key : String) : M String :=
  M.logged (.deleteImage key) do
    s3ClientSend env (.DeleteObject env.s3Bucket key)
    pure key

end S3Service

/-! ## `src/routes/faceRoutes.js` -/

/-- The uploaded file `req.file` (multer, memory storage). -/
structure ImageFile where
  buffer : Buffer
  mimetype : String
deriving DecidableEq, Repr

/-- The object reported as `existingUser` by a 409 answer. -/
structure ExistingUser where
  id : String
  name : String
deriving DecidableEq, Repr

/-- An entry of the `users` array of the listing. -/
structure UserSummary where
  userId : String
  name : String
  imageUrl : Option String
  createdAt : Nat
deriving DecidableEq, Repr

/-- The `pagination` object of the listing. -/
structure Pagination where
  total : Nat
  limit : Int
  skip : Int
  hasMore : Bool
deriving DecidableEq, Repr

/-- The `data` object of a success answer, one shape per route. -/
inductive Data where
  | registered (userId name : String) (faceId : JsStr) (imageUrl : Option String)
      (confidence : Option ℚ) (createdAt : Nat)
  | authenticated (userId name : String) (similarity confidence : Option ℚ)
      (imageUrl : Option String)
  | verified (userId name : String) (similarity confidence : Option ℚ)
  | listing (users : List UserSummary) (pagination : Pagination)
  | deleted (userId name : String)
  | user (userId name : String) (imageUrl : Option String) (confidence : Option ℚ)
      (createdAt updatedAt : Nat)
deriving DecidableEq, Repr

/-- The JSON body of an answer; a field the route does not write is `none`.
`existingUser` is `some none` when the route writes `null`. -/
structure Body where
  success : Bool
  error : Option String := none
  details : Option String := none
  message : Option String := none
  authenticated : Option Bool := none
  verified : Option Bool := none
  existingUser : Option (Option ExistingUser) := none
  userId : Option String := none
  userName : Option String := none
  data : Option Data := none
  /-- The instant `new Date()` whose ISO string the health route writes. -/
  timestamp : Option Nat := none
deriving DecidableEq, Repr

/-- The answer `res.status(status).json(body)`. -/
structure Response where
  status : Nat
  body : Body
deriving DecidableEq, Repr

/-- The request of `POST /register`: `req.body.name` and `req.file`. -/
structure RegisterRequest where
  name : Option String
  file : Option ImageFile
deriving DecidableEq, Repr

/-- The request of `POST /authenticate`: `req.body.threshold` and `req.file`. -/
structure AuthenticateRequest where
  threshold : Option String
  file : Option ImageFile
deriving DecidableEq, Repr

/-- The request of `POST /verify/:userId`. -/
structure VerifyRequest where
  userId : String
  threshold : Option String
  file : Option ImageFile
deriving DecidableEq, Repr

/-- The request of `GET /users`: `req.query.limit` and `req.query.skip`. -/
structure UsersRequest where
  limit : Option String
  skip : Option String
deriving DecidableEq, Repr

/-- The file name of a registration:
`name.replace(/\s+/g, '-').toLowerCase()`, `-`, `Date.now()`, `.jpg`. -/
def registerFileName (env : Env) (name : String) (now : Nat) : String :=
  env.toLowerCase ⟨replaceSpaceRuns false name.data⟩ ++ "-" ++ toString now ++ ".jpg"

/-- The handler of `router.post('/register')`. -/
def register (env : Env) (req : RegisterRequest) : M Response :=
  M.tryCatch
    (match req.name with
      | none => pure { status := 400, body := { success := false, error := some "Name is required" } }
      | some name =>
        if name = "" ∨ jsTrim name = "" then
          pure { status := 400, body := { success := false, error := some "Name is required" } }
        else
          match req.file with
          | none =>
            pure { status := 400, body := { success := false, error := some "Face image is required" } }
          | some imageFile => do
            let faces ← RekognitionService.detectFaces env imageFile.buffer
            if faces.length = 0 then
              pure
                { status := 400
                  body :=
                    { success := false
                      error := some "No face detected in the image. Please provide a clear face image." } }
            else if faces.length > 1 then
              pure
                { status := 400
                  body :=
                    { success := false
                      error :=
                        some "Multiple faces detected. Please provide an image with only one face." } }
            else do
              let existingSearch ←
                RekognitionService.searchFacesByImage env imageFile.buffer 1 (.num 95)
              match existingSearch.faceMatches with
              | firstMatch :: _ => do
                let matchedFaceId := firstMatch.Face.ExternalImageId
                let existingUser ← UserModel.findByFaceId env matchedFaceId
                pure
                  { status := 409
                    body :=
                      { success := false
                        error := some "This face is already registered"
                        existingUser :=
                          some (existingUser.map (fun u => { id := u._id, name := u.name })) } }
              | [] => do
                let faceId ← M.ask env.uuidv4
                let now ← M.ask (fun w => env.clock w 0)
                let fileName := registerFileName env name now
                let s3Result ←
                  S3Service.uploadImage env imageFile.buffer fileName imageFile.mimetype
                let rekognitionResult ←
                  M.tryCatch (RekognitionService.indexFace env s3Result.key faceId)
                    (fun indexError => do
                      let _ ← S3Service.deleteImage env s3Result.key
                      M.throw indexError)
                let user ← UserModel.create env
                  { name := jsTrim name
                    faceId := .str faceId
                    s3ImageKey := some s3Result.key
                    s3ImageUrl := some s3Result.url
                    rekognitionFaceId := rekognitionResult.faceId
                    boundingBox := rekognitionResult.boundingBox
                    confidence := rekognitionResult.confidence }
                pure
                  { status := 201
                    body :=
                      { success := true
                        message := some "Face registered successfully"
                        data :=
                          some (.registered user._id user.name user.faceId user.s3ImageUrl
                            user.confidence user.createdAt) } })
    (fun error =>
      pure
        { status := 500
          body :=
            { success := false
              error := some "Failed to register face"
              details := some error.message } })

/-- The handler of `router.post('/authenticate')`. -/
def authenticate (env : Env) (req : AuthenticateRequest) : M Response :=
  M.tryCatch
    (let threshold := (env.parseFloat req.threshold).orElse (.num 80)
     match req.file with
      | none =>
        pure { status := 400, body := { success := false, error := some "Face image is required" } }
      | some imageFile => do
        let searchResult ←
          RekognitionService.searchFacesByImage env imageFile.buffer 1 threshold
        if truthyStr searchResult.error then
          pure
            { status := 400
              body := { success := false, error := searchResult.error, authenticated := some false } }
        else
          match searchResult.faceMatches with
          | [] =>
            pure
              { status := 401
                body :=
                  { success := false
                    error := some "Face not recognized. User not registered."
                    authenticated := some false } }
          | matchedFace :: _ => do
            let user ← UserModel.findByFaceId env matchedFace.Face.ExternalImageId
            match user with
            | none =>
              pure
                { status := 401
                  body :=
                    { success := false
                      error := some "User record not found"
                      authenticated := some false } }
            | some user =>
              pure
                { status := 200
                  body :=
                    { success := true
                      message := some "Authentication successful"
                      authenticated := some true
                      data :=
                        some (.authenticated user._id user.name matchedFace.Similarity
                          matchedFace.Face.Confidence user.s3ImageUrl) } })
    (fun error =>
      pure
        { status := 500
          body :=
            { success := false
              error := some "Authentication failed"
              authenticated := some false
              details := some error.message } })

/-- The handler of `router.post('/verify/:userId')`. -/
def verify (env : Env) (req : VerifyRequest) : M Response :=
  M.tryCatch
    (let threshold := (env.parseFloat req.threshold).orElse (.num 80)
     match req.file with
      | none =>
        pure { status := 400, body := { success := false, error := some "Face image is required" } }
      | some imageFile => do
        let user ← UserModel.findById env req.userId
        match user with
        | none =>
          pure
            { status := 404
              body := { success := false, error := some "User not found", verified := some false } }
        | some user => do
          let searchResult ←
            RekognitionService.searchFacesByImage env imageFile.buffer 5 threshold
          if truthyStr searchResult.error then
            pure
              { status := 400
                body := { success := false, error := searchResult.error, verified := some false } }
          else
            -- `match.Face.ExternalImageId === user.faceId`: equality of `JsStr` values
            let matchingFace :=
              searchResult.faceMatches.find? (fun m => decide (m.Face.ExternalImageId = user.faceId))
            match matchingFace with
            | none =>
              pure
                { status := 401
                  body :=
                    { success := false
                      error := some "Face does not match the registered user"
                      verified := some false
                      userId := some user._id
                      userName := some user.name } }
            | some matchingFace =>
              pure
                { status := 200
                  body :=
                    { success := true
                      message := some "Face verified successfully"
                      verified := some true
                      data :=
                        some (.verified user._id user.name matchingFace.Similarity
                          matchingFace.Face.Confidence) } })
    (fun error =>
      pure
        { status := 500
          body :=
            { success := false
              error := some "Verification failed"
              verified := some false
              details := some error.message } })

/-- The expression `parseInt(field) || d`: `NaN` and `0` give the default. -/
def parseIntOr (env : Env) (field : Option String) (d : Int) : Int :=
  match env.parseInt field with
  | none => d
  | some n => if n = 0 then d else n

/-- The handler of `router.get('/users')`. -/
def getUsers (env : Env) (req : UsersRequest) : M Response :=
  M.tryCatch
    (let limit := parseIntOr env req.limit 100
     let skip := parseIntOr env req.skip 0
     do
      let users ← UserModel.findAll env limit skip
      let totalCount ← UserModel.count env
      pure
        { status := 200
          body :=
            { success := true
              data :=
                some (.listing
                  (users.map (fun user =>
                    { userId := user._id
                      name := user.name
                      imageUrl := user.s3ImageUrl
                      createdAt := user.createdAt }))
                  { total := totalCount
                    limit := limit
                    skip := skip
                    hasMore := decide (skip + (users.length : Int) < (totalCount : Int)) }) } })
    (fun error =>
      pure
        { status := 500
          body :=
            { success := false
              error := some "Failed to retrieve users"
              details := some error.message } })

/-- The handler of `router.delete('/users/:userId')`. -/
def deleteUser (env : Env) (userId : String) : M Response :=
  M.tryCatch
    (do
      let user ← UserModel.findById env userId
      match user with
      | none =>
        pure { status := 404, body := { success := false, error := some "User not found" } }
      | some user => do
        M.whenTruthy user.rekognitionFaceId (fun rekognitionFaceId =>
          RekognitionService.deleteFace env rekognitionFaceId)
        M.whenTruthy user.s3ImageKey (fun s3ImageKey =>
          S3Service.deleteImage env s3ImageKey)
        UserModel.deleteById env userId
        pure
          { status := 200
            body :=
              { success := true
                message := some "User deleted successfully"
                data := some (.deleted user._id user.name) } })
    (fun error =>
      pure
        { status := 500
          body :=
            { success := false
              error := some "Failed to delete user"
              details := some error.message } })

/-! ## What a run logs -/

/-- The call an event is about. -/
def Event.callOf : Event → Call
  | .call c => c
  | .ok c => c
  | .err c _ => c

/-- The calls that commit a registration: the upload, the indexing and the
creation of the record. -/
def Call.commits : Call → Bool
  | .uploadImage _ _ _ => true
  | .indexFace _ _ => true
  | .create _ => true
  | _ => false

/-- The calls of `UserModel.create`. -/
def Call.isCreate : Call → Bool
  | .create _ => true
  | _ => false

/-- The calls that delete something: `deleteFace`, `deleteImage`, `deleteById`. -/
def Call.deletes : Call → Bool
  | .deleteFace _ => true
  | .deleteImage _ => true
  | .deleteById _ => true
  | _ => false

/-- The world `w'` is reached from `w` by logging the events `l` and nothing
else: the `users` collection is the same. -/
def Logs (w w' : World) (l : List Event) : Prop :=
  w'.users = w.users ∧ w'.trace = w.trace ++ l

/-- The computation `m` never touches the `users` collection and only logs
events satisfying `P`. -/
def M.Frames {α : Type} (m : M α) (P : Event → Bool) : Prop :=
  ∀ w, ∃ l, Logs w (m w).2 l ∧ ∀ e ∈ l, P e = true

/-- The computation `m` is a call of `c`: it never touches the `users`
collection, the first event it logs is the entry of `c`, and every later event
satisfies `P`. -/
def M.Calls {α : Type} (m : M α) (c : Call) (P : Event → Bool) : Prop :=
  ∀ w, ∃ l, Logs w (m w).2 (.call c :: l) ∧ ∀ e ∈ l, P e = true

/-- The event is about a call that commits a registration. -/
def Event.commits (e : Event) : Bool := e.callOf.commits

/-- The event is about a call of `UserModel.create`. -/
def Event.isCreate (e : Event) : Bool := e.callOf.isCreate

/-- The event is the entry of a call of `searchFacesByImage`. -/
def Event.entersSearch : Event → Bool
  | .call (.searchFacesByImage _ _ _) => true
  | _ => false

/-- The predicate `P` holds of the two events that end a call of `c`. -/
def Ends (P : Event → Bool) (c : Call) : Prop :=
  P (.ok c) = true ∧ ∀ e, P (.err c e) = true

/-- The predicate `P` holds of every event about the call `c`. -/
def Allows (P : Event → Bool) (c : Call) : Prop :=
  P (.call c) = true ∧ Ends P c

/-- The event is the entry of a call of `S3Service.deleteImage`. -/
def Event.entersDeleteImage : Event → Bool
  | .call (.deleteImage _) => true
  | _ => false

/-- The event is neither about `UserModel.create` nor the entry of a call of
`S3Service.deleteImage`. -/
def Event.noCreateNoDelete (e : Event) : Bool := !e.isCreate && !e.entersDeleteImage

/-- The message a failed registration reports after the compensating delete
ended with `r`: the error that reaches the outer `catch`. -/
def reportedMessage (indexError : JsError) (r : Except JsError String) : String :=
  match r with
  | .ok _ => indexError.message
  | .error deleteError => deleteError.message

/-- The events of the face-index delete a record calls for, entered and
returned without error: none when the record has no `rekognitionFaceId`. -/
def deleteFaceEvents : Option String → List Event
  | none => []
  | some faceId =>
    if faceId = "" then [] else [.call (.deleteFace faceId), .ok (.deleteFace faceId)]

/-- The events of the image delete a record calls for, entered and returned
without error: none when the record has no `s3ImageKey`. -/
def deleteImageEvents : Option String → List Event
  | none => []
  | some key => if key = "" then [] else [.call (.deleteImage key), .ok (.deleteImage key)]

/-- The event is a thrown error of `deleteFace` or of `deleteImage`. -/
def Event.externalDeleteFailed : Event → Bool
  | .err (.deleteFace _) _ => true
  | .err (.deleteImage _) _ => true
  | _ => false

/-- The handler of `router.get('/users/:userId')`. -/
def getUser (env : Env) (userId : String) : M Response :=
  M.tryCatch
    (do
      let user ← UserModel.findById env userId
      match user with
      | none =>
        pure { status := 404, body := { success := false, error := some "User not found" } }
      | some user =>
        pure
          { status := 200
            body :=
              { success := true
                data :=
                  some (.user user._id user.name user.s3ImageUrl user.confidence user.createdAt
                    user.updatedAt) } })
    (fun error =>
      pure
        { status := 500
          body :=
            { success := false
              error := some "Failed to retrieve user"
              details := some error.message } })

/-- The handler of `router.get('/health')`. -/
def health (env : Env) : M Response := do
  let now ← M.ask (fun w => env.clock w 0)
  pure
    { status := 200
      body :=
        { success := true
          message := some "Face Recognition API is running"
          timestamp := some now } }

/-- The unmatched-route handler of `src/server.js`
(`app.use((req, res) => ...)` after the routers). -/
def unmatchedRoute : M Response :=
  pure { status := 404, body := { success := false, error := some "Endpoint not found" } }

/-- A request as the router dispatches it: one of the seven face routes, or a
path no route matches. -/
inductive Route where
  | register (req : RegisterRequest)
  | authenticate (req : AuthenticateRequest)
  | verify (req : VerifyRequest)
  | users (req : UsersRequest)
  | user (userId : String)
  | deleteUser (userId : String)
  | health
  | unmatched
deriving DecidableEq, Repr

/-- The dispatch of the router to its handlers. -/
def handle (env : Env) : Route → M Response
  | .register req => register env req
  | .authenticate req => authenticate env req
  | .verify req => verify env req
  | .users req => getUsers env req
  | .user userId => getUser env userId
  | .deleteUser userId => deleteUser env userId
  | .health => health env
  | .unmatched => unmatchedRoute

/-- The response envelope: `success` is true exactly when the status is 2xx,
and a response with `success: false` carries a non-empty `error` string. -/
def Response.enveloped (r : Response) : Bool :=
  (r.body.success == decide (200 ≤ r.status ∧ r.status < 300)) &&
    (r.body.success || truthyStr r.body.error)

/-- Whenever the computation returns a response, the response satisfies `P`. -/
def M.Answers (m : M Response) (P : Response → Bool) : Prop :=
  ∀ w, ∀ r w', m w = (.ok r, w') → P r = true

/-! ## Sample environments and requests -/

/-- A fragment of `parseFloat`, on the literals the samples use; everything
else, an absent field included, is `NaN` here. -/
def sampleParseFloat : Option String → JsNumber
  | some "0" => .num 0
  | some "90" => .num 90
  | _ => .nan

/-- A fragment of `parseInt`, on the literals the samples use. -/
def sampleParseInt : Option String → Option Int
  | some "0" => some 0
  | some "10" => some 10
  | _ => none

/-- A sample environment: the SDK clients answer by `rek` and `s3` whatever the
history, the document store never fails, and the clock stands at 7. -/
def sampleEnv (rek : RekCommand → Except JsError RekResponse)
    (s3 : S3Command → Except JsError Unit) : Env :=
  { s3Bucket := "bucket"
    rekognitionCollectionId := "faces"
    region := "ap-south-1"
    rekognitionSend := fun _ command => rek command
    s3Send := fun _ command => s3 command
    dbFail := fun _ _ => none
    uuidv4 := fun _ => "uuid"
    clock := fun _ _ => 7
    parseFloat := sampleParseFloat
    parseInt := sampleParseInt
    toLowerCase := fun s => ⟨s.data.map Char.toLower⟩ }

/-- A world with no user and an empty log. -/
def emptyWorld : World := { users := [], trace := [] }

/-- A sample image. -/
def sampleImage : ImageFile := { buffer := [1, 2, 3], mimetype := "image/jpeg" }

/-- A registration of the name `Alice` with the sample image. -/
def aliceRequest : RegisterRequest := { name := some "Alice", file := some sampleImage }

/-- A provider that finds no face in any image. -/
def rekNoFace : RekCommand → Except JsError RekResponse
  | .DetectFaces _ => .ok { FaceDetails := some [] }
  | _ => .ok {}

/-- A store that accepts every command. -/
def s3Accepts : S3Command → Except JsError Unit := fun _ => .ok ()

/-- The face record the sample provider holds, indexed under the correlation
id `face-1`. -/
def sampleFace : Face :=
  { FaceId := some "rek-1", Confidence := some 99, ExternalImageId := .str "face-1" }

/-- A match of the sample face with similarity 98. -/
def sampleMatch : FaceMatch := { Similarity := some 98, Face := sampleFace }

/-- A provider that sees one face in every image and recognises it as the
sample face. -/
def rekKnownFace : RekCommand → Except JsError RekResponse
  | .ListCollections => .ok { CollectionIds := some ["faces"] }
  | .DetectFaces _ => .ok { FaceDetails := some [{}] }
  | .SearchFacesByImage _ _ _ _ => .ok { FaceMatches := some [sampleMatch] }
  | _ => .ok {}

/-- A provider that sees one face in every image, knows no face, and fails
every indexing request. -/
def rekIndexFails : RekCommand → Except JsError RekResponse
  | .ListCollections => .ok { CollectionIds := some ["faces"] }
  | .DetectFaces _ => .ok { FaceDetails := some [{}] }
  | .SearchFacesByImage _ _ _ _ => .ok { FaceMatches := some [] }
  | .IndexFaces _ _ _ _ _ =>
    .error { name := "ThrottlingException", message := "index failed" }
  | _ => .ok {}

/-- A store that accepts uploads and refuses every delete. -/
def s3DeleteFails : S3Command → Except JsError Unit
  | .DeleteObject _ _ => .error { name := "AccessDenied", message := "delete failed" }
  | _ => .ok ()

/-- The record of Alice, registered under the correlation id `face-1`. -/
def aliceUser : User :=
  { _id := "user-1"
    name := "Alice"
    faceId := .str "face-1"
    s3ImageKey := some "faces/uuid-alice-7.jpg"
    s3ImageUrl := some "https://bucket.s3.ap-south-1.amazonaws.com/faces/uuid-alice-7.jpg"
    rekognitionFaceId := some "rek-1"
    boundingBox := none
    confidence := some 99
    createdAt := 7
    updatedAt := 7 }

/-- A world whose only user is Alice, with an empty log. -/
def aliceWorld : World := { users := [aliceUser], trace := [] }

/-- An authenticate request with the sample image and no threshold. -/
def plainAuthenticate : AuthenticateRequest := { threshold := none, file := some sampleImage }

/-- An authenticate request with the sample image and the threshold `0`. -/
def zeroThresholdAuthenticate : AuthenticateRequest :=
  { threshold := some "0", file := some sampleImage }

/-- A second record, of Bob, registered under the correlation id `face-2`. -/
def bobUser : User :=
  { _id := "user-2"
    name := "Bob"
    faceId := .str "face-2"
    s3ImageKey := some "faces/uuid-bob-7.jpg"
    s3ImageUrl := some "https://bucket.s3.ap-south-1.amazonaws.com/faces/uuid-bob-7.jpg"
    rekognitionFaceId := some "rek-2"
    boundingBox := none
    confidence := some 97
    createdAt := 8
    updatedAt := 8 }

/-- A world whose users are Alice and Bob, with an empty log. -/
def twoUserWorld : World := { users := [aliceUser, bobUser], trace := [] }

/-- A request to verify the sample image, Alice's face, against Bob. -/
def verifyAgainstBob : VerifyRequest :=
  { userId := "user-2", threshold := none, file := some sampleImage }

/-- A provider whose face index refuses every delete, as when the entry was
already removed out-of-band and the delete fails. -/
def rekDeleteFails : RekCommand → Except JsError RekResponse
  | .DeleteFaces _ _ =>
    .error { name := "ResourceNotFoundException", message := "face not found" }
  | _ => .ok {}

/-- A provider whose face index answers a delete of an unknown face with an
empty `DeletedFaces` list. -/
def rekDeletesNothing : RekCommand → Except JsError RekResponse
  | .DeleteFaces _ _ => .ok { DeletedFaces := some [] }
  | _ => .ok {}

/-- The `i`-th of a series of sample records, created at time `i`. -/
def numberedUser (i : Nat) : User :=
  { _id := ⟨[Char.ofNat (97 + i)]⟩
    name := "User"
    faceId := .undefined
    s3ImageKey := none
    s3ImageUrl := none
    rekognitionFaceId := none
    boundingBox := none
    confidence := none
    createdAt := i
    updatedAt := i }

/-- A world with `n` sample records and an empty log. -/
def crowdWorld (n : Nat) : World := { users := (List.range n).map numberedUser, trace := [] }

/-- The listing request `limit=10&skip=0`. -/
def firstPage : UsersRequest := { limit := some "10", skip := some "0" }

/-- A provider that knows the collection and answers every search with the
error it raises for an image without a face. -/
def rekSearchNoFaces : RekCommand → Except JsError RekResponse
  | .ListCollections => .ok { CollectionIds := some ["faces"] }
  | .SearchFacesByImage _ _ _ _ =>
    .error
      { name := "InvalidParameterException"
        message := "There are no faces in the image. Should be at least 1." }
  | _ => .ok {}

/-- A provider that knows the collection and indexes no face: it reports one
unindexed face, rejected for its sharpness and its pose. -/
def rekRejectsFace : RekCommand → Except JsError RekResponse
  | .ListCollections => .ok { CollectionIds := some ["faces"] }
  | .IndexFaces _ _ _ _ _ =>
    .ok
      { FaceRecords := some []
        UnindexedFaces := some [{ Reasons := some ["LOW_SHARPNESS", "EXTREME_POSE"] }] }
  | _ => .ok {}

/-- The sample environment with a document store whose every `findOne` throws,
as when the connection is lost. -/
def lookupFailsEnv : Env :=
  { sampleEnv rekKnownFace s3Accepts with
    dbFail := fun _ op =>
      match op with
      | .findOne _ => some { name := "MongoNetworkError", message := "connection lost" }
      | _ => none }

/-- A record stored with `faceId: null`. -/
def nullFaceIdUser : User :=
  { _id := "user-3"
    name := "Carol"
    faceId := .null
    s3ImageKey := none
    s3ImageUrl := none
    rekognitionFaceId := none
    boundingBox := none
    confidence := none
    createdAt := 9
    updatedAt := 9 }

/-- A world whose only user is the record with `faceId: null`. -/
def nullFaceIdWorld : World := { users := [nullFaceIdUser], trace := [] }

/-- A provider that knows the collection and answers every search with one
match whose face carries no `ExternalImageId`. -/
def rekAnonymousMatch : RekCommand → Except JsError RekResponse
  | .ListCollections => .ok { CollectionIds := some ["faces"] }
  | .SearchFacesByImage _ _ _ _ =>
    .ok { FaceMatches := some [{ Similarity := some 98, Face := { FaceId := some "rek-9" } }] }
  | _ => .ok {}

/-- A request to verify the sample image against the record with `faceId: null`. -/
def verifyAgainstNullFaceId : VerifyRequest :=
  { userId := "user-3", threshold := none, file := some sampleImage }

end FaceAWS

namespace FaceAWS

/-! ## The monad -/

@[simp] theorem M.bind_eq {α β : Type} (m : M α) (f : α → M β) : (m >>= f) = M.andThen m f := rfl

@[simp] theorem M.pure_eq {α : Type} (a : α) : (pure a : M α) = M.ret a := rfl

/-! ## Lemmas on the log -/

theorem Logs.refl (w : World) : Logs w w [] := by
  simp [Logs]

theorem Logs.trans {w w' w'' : World} {l l' : List Event}
    (h : Logs w w' l) (h' : Logs w' w'' l') : Logs w w'' (l ++ l') := by
  obtain ⟨hu, ht⟩ := h
  obtain ⟨hu', ht'⟩ := h'
  exact ⟨hu'.trans hu, by rw [ht', ht, List.append_assoc]⟩

theorem Logs.log (w : World) (e : Event) : Logs w (w.log e) [e] := by
  simp [Logs, World.log]

theorem Logs.eventsSince {w w' : World} {l : List Event} (h : Logs w w' l) :
    eventsSince w w' = l := by
  simp [FaceAWS.eventsSince, h.2]

theorem M.Frames.ret {α : Type} (a : α) (P : Event → Bool) : (M.ret a).Frames P :=
  fun w => ⟨[], Logs.refl w, by simp⟩

theorem M.Frames.throw {α : Type} (e : JsError) (P : Event → Bool) :
    (M.throw e : M α).Frames P :=
  fun w => ⟨[], Logs.refl w, by simp⟩

theorem M.Frames.ask {α : Type} (f : World → α) (P : Event → Bool) : (M.ask f).Frames P :=
  fun w => ⟨[], Logs.refl w, by simp⟩

theorem M.Frames.lift {α : Type} (f : World → Except JsError α) (P : Event → Bool) :
    (M.lift f).Frames P :=
  fun w => ⟨[], Logs.refl w, by simp⟩

theorem M.Frames.andThen {α β : Type} {m : M α} {f : α → M β} {P : Event → Bool}
    (hm : m.Frames P) (hf : ∀ a, (f a).Frames P) : (M.andThen m f).Frames P := by
  intro w
  obtain ⟨l, hl, hP⟩ := hm w
  unfold M.andThen
  rcases hmw : m w with ⟨r, w'⟩
  rw [hmw] at hl
  cases r with
  | error e => exact ⟨l, hl, hP⟩
  | ok a =>
    obtain ⟨l', hl', hP'⟩ := hf a w'
    refine ⟨l ++ l', hl.trans hl', ?_⟩
    intro e he
    rcases List.mem_append.1 he with h | h
    · exact hP e h
    · exact hP' e h

theorem M.Frames.tryCatch {α : Type} {m : M α} {f : JsError → M α} {P : Event → Bool}
    (hm : m.Frames P) (hf : ∀ e, (f e).Frames P) : (M.tryCatch m f).Frames P := by
  intro w
  obtain ⟨l, hl, hP⟩ := hm w
  unfold M.tryCatch
  rcases hmw : m w with ⟨r, w'⟩
  rw [hmw] at hl
  cases r with
  | ok a => exact ⟨l, hl, hP⟩
  | error e =>
    obtain ⟨l', hl', hP'⟩ := hf e w'
    refine ⟨l ++ l', hl.trans hl', ?_⟩
    intro e he
    rcases List.mem_append.1 he with h | h
    · exact hP e h
    · exact hP' e h

theorem M.Calls.logged {α : Type} {m : M α} {P : Event → Bool} {c : Call}
    (hok : P (.ok c) = true) (herr : ∀ e, P (.err c e) = true) (hm : m.Frames P) :
    (M.logged c m).Calls c P := by
  intro w
  obtain ⟨l, hl, hP⟩ := hm (w.log (.call c))
  unfold M.logged
  rcases hmw : m (w.log (.call c)) with ⟨r, w'⟩
  rw [hmw] at hl
  cases r with
  | ok a =>
    refine ⟨l ++ [.ok c], ?_, ?_⟩
    · simpa using ((Logs.log w (.call c)).trans hl).trans (Logs.log w' (.ok c))
    · intro e he
      simp only [List.mem_append, List.mem_singleton] at he
      rcases he with h | rfl
      · exact hP e h
      · exact hok
  | error err =>
    refine ⟨l ++ [.err c err], ?_, ?_⟩
    · simpa using ((Logs.log w (.call c)).trans hl).trans (Logs.log w' (.err c err))
    · intro e he
      simp only [List.mem_append, List.mem_singleton] at he
      rcases he with h | rfl
      · exact hP e h
      · exact herr err

theorem M.Calls.frames {α : Type} {m : M α} {P : Event → Bool} {c : Call}
    (hm : m.Calls c P) (hc : P (.call c) = true) : m.Frames P := by
  intro w
  obtain ⟨l, hl, hP⟩ := hm w
  refine ⟨.call c :: l, hl, ?_⟩
  intro e he
  rcases List.mem_cons.1 he with rfl | h
  · exact hc
  · exact hP e h

/-- From a call and a run: the events logged by that run. -/
theorem M.Calls.run_call {α : Type} {m : M α} {c : Call} {P : Event → Bool} (hm : m.Calls c P)
    {w w' : World} {r : Except JsError α} (h : m w = (r, w')) :
    ∃ l, Logs w w' (.call c :: l) ∧ ∀ e ∈ l, P e = true := by
  have := hm w
  rw [h] at this
  exact this

theorem M.Calls.of_logged {α : Type} {m : M α} {P : Event → Bool} {c : Call}
    (hc : Ends P c) (hm : m.Frames P) : (M.logged c m).Calls c P :=
  M.Calls.logged hc.1 hc.2 hm

theorem M.Frames.of_logged_call {α : Type} {m : M α} {P : Event → Bool} {c : Call}
    (hc : Allows P c) (hm : m.Frames P) : (M.logged c m).Frames P :=
  (M.Calls.of_logged hc.2 hm).frames hc.1

/-- From a frame and a run: the events logged by that run. -/
theorem M.Frames.run_frame {α : Type} {m : M α} {P : Event → Bool} (hm : m.Frames P)
    {w w' : World} {r : Except JsError α} (h : m w = (r, w')) :
    ∃ l, Logs w w' l ∧ ∀ e ∈ l, P e = true := by
  have := hm w
  rw [h] at this
  exact this

/-! ## Frames of the services -/

theorem rekognitionClientSend_frames (env : Env) (command : RekCommand) (P : Event → Bool) :
    (rekognitionClientSend env command).Frames P :=
  M.Frames.lift _ P

theorem s3ClientSend_frames (env : Env) (command : S3Command) (P : Event → Bool) :
    (s3ClientSend env command).Frames P :=
  M.Frames.lift _ P

theorem Db.findOne_frames (env : Env) (q : Query) (P : Event → Bool) :
    (Db.findOne env q).Frames P := by
  intro w
  refine ⟨[], ?_, by simp⟩
  unfold Db.findOne
  cases env.dbFail w (.findOne q) <;> exact Logs.refl w

theorem Db.find_frames (env : Env) (limit skip : Int) (P : Event → Bool) :
    (Db.find env limit skip).Frames P := by
  intro w
  refine ⟨[], ?_, by simp⟩
  unfold Db.find
  cases env.dbFail w (.find limit skip)
  · by_cases h : skip < 0 <;> simp [h, Logs.refl]
  · exact Logs.refl w

theorem Db.countDocuments_frames (env : Env) (P : Event → Bool) :
    (Db.countDocuments env).Frames P := by
  intro w
  refine ⟨[], ?_, by simp⟩
  unfold Db.countDocuments
  cases env.dbFail w .countDocuments <;> exact Logs.refl w

theorem RekognitionService.ensureCollectionExists_frames (env : Env) (P : Event → Bool)
    (hE : Allows P .ensureCollectionExists) :
    (RekognitionService.ensureCollectionExists env).Frames P := by
  unfold RekognitionService.ensureCollectionExists
  refine M.Frames.of_logged_call hE (M.Frames.tryCatch ?_ (fun e => M.Frames.throw e P))
  simp only [M.bind_eq, M.pure_eq]
  refine M.Frames.andThen (rekognitionClientSend_frames _ _ P) (fun response => ?_)
  split
  · exact M.Frames.ret _ P
  · exact M.Frames.andThen (rekognitionClientSend_frames _ _ P) (fun _ => M.Frames.ret _ P)

theorem RekognitionService.detectFaces_calls (env : Env) (imageBuffer : Buffer)
    (P : Event → Bool) (hP : Ends P (.detectFaces imageBuffer)) :
    (RekognitionService.detectFaces env imageBuffer).Calls (.detectFaces imageBuffer) P := by
  unfold RekognitionService.detectFaces
  refine M.Calls.of_logged hP ?_
  simp only [M.bind_eq, M.pure_eq]
  exact M.Frames.andThen (rekognitionClientSend_frames _ _ P) (fun _ => M.Frames.ret _ P)

theorem RekognitionService.searchFacesByImage_calls (env : Env) (imageBuffer : Buffer)
    (maxFaces : Nat) (faceMatchThreshold : JsNumber) (P : Event → Bool)
    (hP : Ends P (.searchFacesByImage imageBuffer maxFaces faceMatchThreshold))
    (hE : Allows P .ensureCollectionExists) :
    (RekognitionService.searchFacesByImage env imageBuffer maxFaces faceMatchThreshold).Calls
      (.searchFacesByImage imageBuffer maxFaces faceMatchThreshold) P := by
  unfold RekognitionService.searchFacesByImage
  refine M.Calls.of_logged hP ?_
  simp only [M.bind_eq, M.pure_eq]
  refine M.Frames.andThen (ensureCollectionExists_frames env P hE) (fun _ => ?_)
  refine M.Frames.tryCatch ?_ (fun e => ?_)
  · exact M.Frames.andThen (rekognitionClientSend_frames _ _ P) (fun _ => M.Frames.ret _ P)
  · split
    · exact M.Frames.ret _ P
    · exact M.Frames.throw _ P

theorem RekognitionService.indexFace_calls (env : Env) (s3Key externalImageId : String)
    (P : Event → Bool) (hP : Ends P (.indexFace s3Key externalImageId))
    (hE : Allows P .ensureCollectionExists) :
    (RekognitionService.indexFace env s3Key externalImageId).Calls
      (.indexFace s3Key externalImageId) P := by
  unfold RekognitionService.indexFace
  refine M.Calls.of_logged hP ?_
  simp only [M.bind_eq, M.pure_eq]
  refine M.Frames.andThen (ensureCollectionExists_frames env P hE) (fun _ => ?_)
  refine M.Frames.andThen (rekognitionClientSend_frames _ _ P) (fun response => ?_)
  split
  · split
    · exact M.Frames.throw _ P
    · exact M.Frames.throw _ P
  · exact M.Frames.ret _ P

theorem RekognitionService.deleteFace_calls (env : Env) (faceId : String)
    (P : Event → Bool) (hP : Ends P (.deleteFace faceId)) :
    (RekognitionService.deleteFace env faceId).Calls (.deleteFace faceId) P := by
  unfold RekognitionService.deleteFace
  refine M.Calls.of_logged hP ?_
  simp only [M.bind_eq, M.pure_eq]
  exact M.Frames.andThen (rekognitionClientSend_frames _ _ P) (fun _ => M.Frames.ret _ P)

theorem S3Service.uploadImage_calls (env : Env) (imageBuffer : Buffer)
    (fileName contentType : String) (P : Event → Bool)
    (hP : Ends P (.uploadImage imageBuffer fileName contentType)) :
    (S3Service.uploadImage env imageBuffer fileName contentType).Calls
      (.uploadImage imageBuffer fileName contentType) P := by
  unfold S3Service.uploadImage
  refine M.Calls.of_logged hP ?_
  simp only [M.bind_eq, M.pure_eq]
  refine M.Frames.andThen (M.Frames.ask _ P) (fun _ => ?_)
  exact M.Frames.andThen (s3ClientSend_frames _ _ P) (fun _ => M.Frames.ret _ P)

theorem S3Service.deleteImage_calls (env : Env) (key : String)
    (P : Event → Bool) (hP : Ends P (.deleteImage key)) :
    (S3Service.deleteImage env key).Calls (.deleteImage key) P := by
  unfold S3Service.deleteImage
  refine M.Calls.of_logged hP ?_
  simp only [M.bind_eq, M.pure_eq]
  exact M.Frames.andThen (s3ClientSend_frames _ _ P) (fun _ => M.Frames.ret _ P)

theorem UserModel.findById_calls (env : Env) (id : String)
    (P : Event → Bool) (hP : Ends P (.findById id)) :
    (UserModel.findById env id).Calls (.findById id) P :=
  M.Calls.of_logged hP (Db.findOne_frames env _ P)

theorem UserModel.findByFaceId_calls (env : Env) (faceId : JsStr)
    (P : Event → Bool) (hP : Ends P (.findByFaceId faceId)) :
    (UserModel.findByFaceId env faceId).Calls (.findByFaceId faceId) P :=
  M.Calls.of_logged hP (Db.findOne_frames env _ P)

/-- A lookup that returns gives the first document of the collection that
satisfies the filter. -/
theorem UserModel.findByFaceId_ok (env : Env) (faceId : JsStr) (w w' : World)
    (found : Option User) (h : UserModel.findByFaceId env faceId w = (.ok found, w')) :
    found = w.users.find? (Query.byFaceId faceId).matches := by
  unfold UserModel.findByFaceId M.logged Db.findOne at h
  cases hf : env.dbFail (w.log (.call (.findByFaceId faceId))) (.findOne (.byFaceId faceId)) with
  | some e => simp [hf] at h
  | none =>
    simp only [hf, Prod.mk.injEq, Except.ok.injEq] at h
    rw [← h.1]
    rfl

/-- A lookup that returns gives the first document of the collection with
that id. -/
theorem UserModel.findById_ok (env : Env) (id : String) (w w' : World)
    (found : Option User) (h : UserModel.findById env id w = (.ok found, w')) :
    found = w.users.find? (fun u => decide (u._id = id)) := by
  unfold UserModel.findById M.logged Db.findOne at h
  cases hf : env.dbFail (w.log (.call (.findById id))) (.findOne (.byId id)) with
  | some e => simp [hf] at h
  | none =>
    simp only [hf, Prod.mk.injEq, Except.ok.injEq] at h
    rw [← h.1]
    rfl

/-- The events that are not about a committing call. -/
theorem allows_not_commits (c : Call) (hc : c.commits = false) :
    Allows (fun e => !e.commits) c := by
  refine ⟨?_, ?_, fun e => ?_⟩ <;> simp [Event.commits, Event.callOf, hc]

/-! ## Registration -/

/-- C1: a registration with a non-empty name and an image, for which
`detectFaces` returns no face or at least two faces, is answered with status
400 and `success: false`; the run logs no call of `S3Service.uploadImage`,
`RekognitionService.indexFace` or `UserModel.create`, and the `users`
collection is as before. -/
theorem register_rejects_unless_one_face (env : Env) (req : RegisterRequest) (w w1 : World)
    (name : String) (imageFile : ImageFile) (faces : List FaceDetail)
    (hname : req.name = some name) (hne : name ≠ "") (hfile : req.file = some imageFile)
    (hdet : RekognitionService.detectFaces env imageFile.buffer w = (.ok faces, w1))
    (hcount : faces.length = 0 ∨ 2 ≤ faces.length) :
    ∃ resp w', register env req w = (.ok resp, w') ∧
      resp.status = 400 ∧ resp.body.success = false ∧
      w'.users = w.users ∧ ∀ e ∈ eventsSince w w', e.commits = false := by
  by_cases htrim : jsTrim name = ""
  · have h : register env req w =
        (.ok { status := 400, body := { success := false, error := some "Name is required" } },
          w) := by
      simp [register, hname, htrim, M.tryCatch, M.ret]
    exact ⟨_, _, h, rfl, rfl, rfl, by simp [eventsSince]⟩
  · obtain ⟨l, hl, hP⟩ :=
      ((RekognitionService.detectFaces_calls env imageFile.buffer (fun e => !e.commits)
        (allows_not_commits (.detectFaces imageFile.buffer) rfl).2).frames
          (allows_not_commits (.detectFaces imageFile.buffer) rfl).1).run_frame hdet
    have hev : ∀ e ∈ eventsSince w w1, e.commits = false := by
      rw [hl.eventsSince]
      intro e he
      simpa using hP e he
    rcases hcount with h0 | h2
    · have hnil : faces = [] := List.length_eq_zero.1 h0
      have h : register env req w =
          (.ok { status := 400
                 body :=
                  { success := false
                    error :=
                      some "No face detected in the image. Please provide a clear face image." } },
            w1) := by
        simp [register, hname, hne, htrim, hfile, M.tryCatch, M.andThen, hdet, hnil, M.ret]
      exact ⟨_, _, h, rfl, rfl, hl.1, hev⟩
    · have h0 : faces ≠ [] := by
        intro hnil
        simp [hnil] at h2
      have h1 : 1 < faces.length := by omega
      have h : register env req w =
          (.ok { status := 400
                 body :=
                  { success := false
                    error :=
                      some "Multiple faces detected. Please provide an image with only one face." } },
            w1) := by
        simp [register, hname, hne, htrim, hfile, M.tryCatch, M.andThen, hdet, h0, h1, M.ret]
      exact ⟨_, _, h, rfl, rfl, hl.1, hev⟩

theorem jsTrim_ne_empty {name : String} (h : jsTrim name ≠ "") : name ≠ "" := by
  intro hn
  subst hn
  exact h rfl

theorem not_commits_of_forall {l : List Event} (h : ∀ e ∈ l, (!e.commits) = true) :
    ∀ e ∈ l, e.commits = false := by
  intro e he
  simpa using h e he

/-- C2 (amended): a registration that passes input validation, with exactly one
detected face and a pre-check search (threshold 95) that returns at least one
match, logs no upload, no indexing and no record creation and leaves the
`users` collection as it was.  When the registry lookup of the first match's
`ExternalImageId` returns, the answer is 409 and `existingUser` is the id and
name of the first record the lookup's filter matches (for a string
`ExternalImageId`, the first record whose correlation id equals it), or `null`
when there is none.  When that lookup throws, the answer is 500. -/
theorem register_conflict_on_match (env : Env) (req : RegisterRequest) (w w1 w2 : World)
    (name : String) (imageFile : ImageFile) (face : FaceDetail) (searchResult : SearchResult)
    (firstMatch : FaceMatch) (rest : List FaceMatch)
    (hname : req.name = some name) (hvalid : jsTrim name ≠ "") (hfile : req.file = some imageFile)
    (hdet : RekognitionService.detectFaces env imageFile.buffer w = (.ok [face], w1))
    (hsearch : RekognitionService.searchFacesByImage env imageFile.buffer 1 (.num 95) w1 =
      (.ok searchResult, w2))
    (hmatch : searchResult.faceMatches = firstMatch :: rest) :
    ∃ resp w', register env req w = (.ok resp, w') ∧
      w'.users = w.users ∧
      (∀ e ∈ eventsSince w w', e.commits = false) ∧
      Event.call (.searchFacesByImage imageFile.buffer 1 (.num 95)) ∈ eventsSince w w' ∧
      (∀ found w3,
        UserModel.findByFaceId env firstMatch.Face.ExternalImageId w2 = (.ok found, w3) →
        resp.status = 409 ∧ resp.body.success = false ∧
        found = w.users.find? (Query.byFaceId firstMatch.Face.ExternalImageId).matches ∧
        (∀ s, firstMatch.Face.ExternalImageId = .str s →
          found = w.users.find? (fun u => decide (u.faceId = .str s))) ∧
        resp.body.existingUser =
          some (found.map (fun u => { id := u._id, name := u.name }))) ∧
      (∀ e w3,
        UserModel.findByFaceId env firstMatch.Face.ExternalImageId w2 = (.error e, w3) →
        resp.status = 500 ∧ resp.body.success = false ∧
        resp.body.details = some e.message) := by
  have hne := jsTrim_ne_empty hvalid
  obtain ⟨l1, hl1, hP1⟩ :=
    ((RekognitionService.detectFaces_calls env imageFile.buffer (fun e => !e.commits)
      (allows_not_commits (.detectFaces imageFile.buffer) rfl).2).frames
        (allows_not_commits (.detectFaces imageFile.buffer) rfl).1).run_frame hdet
  obtain ⟨l2, hl2, hP2⟩ :=
    (RekognitionService.searchFacesByImage_calls env imageFile.buffer 1 (.num 95)
      (fun e => !e.commits)
      (allows_not_commits (.searchFacesByImage imageFile.buffer 1 (.num 95)) rfl).2
      (allows_not_commits .ensureCollectionExists rfl)).run_call hsearch
  rcases hfind : UserModel.findByFaceId env firstMatch.Face.ExternalImageId w2 with ⟨r, w3⟩
  obtain ⟨l3, hl3, hP3⟩ :=
    ((UserModel.findByFaceId_calls env firstMatch.Face.ExternalImageId (fun e => !e.commits)
      (allows_not_commits (.findByFaceId firstMatch.Face.ExternalImageId) rfl).2).frames
        (allows_not_commits (.findByFaceId firstMatch.Face.ExternalImageId) rfl).1).run_frame
      hfind
  have hlog := (hl1.trans hl2).trans hl3
  have hquiet : ∀ e ∈ eventsSince w w3, e.commits = false := by
    rw [hlog.eventsSince]
    intro e he
    simp only [List.mem_append, List.mem_cons] at he
    rcases he with (h1 | rfl | h2) | h3
    · exact not_commits_of_forall hP1 e h1
    · rfl
    · exact not_commits_of_forall hP2 e h2
    · exact not_commits_of_forall hP3 e h3
  have hsearched :
      Event.call (.searchFacesByImage imageFile.buffer 1 (.num 95)) ∈ eventsSince w w3 := by
    rw [hlog.eventsSince]
    simp
  cases r with
  | error e =>
    have h : register env req w =
        (.ok { status := 500
               body :=
                { success := false
                  error := some "Failed to register face"
                  details := some e.message } },
          w3) := by
      simp [register, hname, hne, hvalid, hfile, M.tryCatch, M.andThen, hdet, hsearch, hmatch,
        hfind, M.ret]
    refine ⟨_, _, h, hlog.1, hquiet, hsearched, ?_, ?_⟩
    · intro found w3' hf
      simp at hf
    · intro e' w3' hf
      simp only [Prod.mk.injEq, Except.error.injEq] at hf
      obtain ⟨rfl, _⟩ := hf
      exact ⟨rfl, rfl, rfl⟩
  | ok found =>
    have hfound := UserModel.findByFaceId_ok env _ _ _ _ hfind
    rw [hl2.1, hl1.1] at hfound
    have h : register env req w =
        (.ok { status := 409
               body :=
                { success := false
                  error := some "This face is already registered"
                  existingUser := some (found.map (fun u => { id := u._id, name := u.name })) } },
          w3) := by
      simp [register, hname, hne, hvalid, hfile, M.tryCatch, M.andThen, hdet, hsearch, hmatch,
        hfind, M.ret]
    refine ⟨_, _, h, hlog.1, hquiet, hsearched, ?_, ?_⟩
    · intro found' w3' hf
      simp only [Prod.mk.injEq, Except.ok.injEq] at hf
      obtain ⟨rfl, _⟩ := hf
      refine ⟨rfl, rfl, hfound, ?_, rfl⟩
      intro s hs
      rw [hfound, hs]
      rfl
    · intro e w3' hf
      simp at hf

/-- The run of a registration whose upload succeeds and whose indexing fails:
the compensating delete runs, and the outer `catch` answers 500 with the
message of the error that reaches it. -/
theorem register_index_failure_run (env : Env) (req : RegisterRequest)
    (w w1 w2 w3 w4 w5 : World) (name : String) (imageFile : ImageFile) (face : FaceDetail)
    (searchResult : SearchResult) (s3Result : UploadResult) (indexError : JsError)
    (r : Except JsError String)
    (hname : req.name = some name) (hvalid : jsTrim name ≠ "") (hfile : req.file = some imageFile)
    (hdet : RekognitionService.detectFaces env imageFile.buffer w = (.ok [face], w1))
    (hsearch : RekognitionService.searchFacesByImage env imageFile.buffer 1 (.num 95) w1 =
      (.ok searchResult, w2))
    (hnone : searchResult.faceMatches = [])
    (hup : S3Service.uploadImage env imageFile.buffer
      (registerFileName env name (env.clock w2 0)) imageFile.mimetype w2 = (.ok s3Result, w3))
    (hidx : RekognitionService.indexFace env s3Result.key (env.uuidv4 w2) w3 =
      (.error indexError, w4))
    (hdel : S3Service.deleteImage env s3Result.key w4 = (r, w5)) :
    register env req w =
      (.ok { status := 500
             body :=
              { success := false
                error := some "Failed to register face"
                details := some (reportedMessage indexError r) } },
        w5) := by
  have hne := jsTrim_ne_empty hvalid
  cases r with
  | ok k =>
    simp [register, hname, hne, hvalid, hfile, M.tryCatch, M.andThen, hdet, hsearch, hnone,
      M.ask, hup, hidx, hdel, M.ret, M.throw, reportedMessage]
  | error deleteError =>
    simp [register, hname, hne, hvalid, hfile, M.tryCatch, M.andThen, hdet, hsearch, hnone,
      M.ask, hup, hidx, hdel, M.ret, M.throw, reportedMessage]

theorem allows_noCreateNoDelete (c : Call) (hc : c.isCreate = false)
    (hd : Event.entersDeleteImage (.call c) = false) :
    Allows Event.noCreateNoDelete c := by
  refine ⟨?_, ?_, fun e => ?_⟩
  · simp [Event.noCreateNoDelete, Event.isCreate, Event.callOf, hc, hd]
  · simp [Event.noCreateNoDelete, Event.isCreate, Event.callOf, hc, Event.entersDeleteImage]
  · simp [Event.noCreateNoDelete, Event.isCreate, Event.callOf, hc, Event.entersDeleteImage]

theorem ends_noCreateNoDelete (c : Call) (hc : c.isCreate = false) :
    Ends Event.noCreateNoDelete c := by
  refine ⟨?_, fun e => ?_⟩ <;>
    simp [Event.noCreateNoDelete, Event.isCreate, Event.callOf, hc, Event.entersDeleteImage]

/-- The events logged by a registration whose upload succeeds and whose
indexing fails: one entry of `deleteImage`, with the uploaded key, and around
it only events that are neither about `create` nor another entry of
`deleteImage`. -/
theorem register_index_failure_log (env : Env)
    (w w1 w2 w3 w4 w5 : World) (name : String) (imageFile : ImageFile) (face : FaceDetail)
    (searchResult : SearchResult) (s3Result : UploadResult) (indexError : JsError)
    (r : Except JsError String)
    (hdet : RekognitionService.detectFaces env imageFile.buffer w = (.ok [face], w1))
    (hsearch : RekognitionService.searchFacesByImage env imageFile.buffer 1 (.num 95) w1 =
      (.ok searchResult, w2))
    (hup : S3Service.uploadImage env imageFile.buffer
      (registerFileName env name (env.clock w2 0)) imageFile.mimetype w2 = (.ok s3Result, w3))
    (hidx : RekognitionService.indexFace env s3Result.key (env.uuidv4 w2) w3 =
      (.error indexError, w4))
    (hdel : S3Service.deleteImage env s3Result.key w4 = (r, w5)) :
    ∃ before after, Logs w w5 (before ++ .call (.deleteImage s3Result.key) :: after) ∧
      (∀ e ∈ before, e.noCreateNoDelete = true) ∧ (∀ e ∈ after, e.noCreateNoDelete = true) := by
  obtain ⟨l1, hl1, hP1⟩ :=
    ((RekognitionService.detectFaces_calls env imageFile.buffer Event.noCreateNoDelete
      (ends_noCreateNoDelete (.detectFaces imageFile.buffer) rfl)).frames
        (allows_noCreateNoDelete (.detectFaces imageFile.buffer) rfl rfl).1).run_frame hdet
  obtain ⟨l2, hl2, hP2⟩ :=
    ((RekognitionService.searchFacesByImage_calls env imageFile.buffer 1 (.num 95)
      Event.noCreateNoDelete
      (ends_noCreateNoDelete (.searchFacesByImage imageFile.buffer 1 (.num 95)) rfl)
      (allows_noCreateNoDelete .ensureCollectionExists rfl rfl)).frames
        (allows_noCreateNoDelete (.searchFacesByImage imageFile.buffer 1 (.num 95))
          rfl rfl).1).run_frame hsearch
  obtain ⟨l3, hl3, hP3⟩ :=
    ((S3Service.uploadImage_calls env imageFile.buffer
      (registerFileName env name (env.clock w2 0)) imageFile.mimetype Event.noCreateNoDelete
      (ends_noCreateNoDelete (.uploadImage imageFile.buffer
        (registerFileName env name (env.clock w2 0)) imageFile.mimetype) rfl)).frames
        (allows_noCreateNoDelete (.uploadImage imageFile.buffer
          (registerFileName env name (env.clock w2 0)) imageFile.mimetype) rfl rfl).1).run_frame hup
  obtain ⟨l4, hl4, hP4⟩ :=
    ((RekognitionService.indexFace_calls env s3Result.key (env.uuidv4 w2)
      Event.noCreateNoDelete
      (ends_noCreateNoDelete (.indexFace s3Result.key (env.uuidv4 w2)) rfl)
      (allows_noCreateNoDelete .ensureCollectionExists rfl rfl)).frames
        (allows_noCreateNoDelete (.indexFace s3Result.key (env.uuidv4 w2)) rfl rfl).1).run_frame hidx
  obtain ⟨l5, hl5, hP5⟩ :=
    (S3Service.deleteImage_calls env s3Result.key Event.noCreateNoDelete
      (ends_noCreateNoDelete (.deleteImage s3Result.key) rfl)).run_call hdel
  refine ⟨l1 ++ l2 ++ l3 ++ l4, l5, ?_, ?_, hP5⟩
  · simpa using (((hl1.trans hl2).trans hl3).trans hl4).trans hl5
  · intro e he
    simp only [List.mem_append] at he
    rcases he with ((h | h) | h) | h
    · exact hP1 e h
    · exact hP2 e h
    · exact hP3 e h
    · exact hP4 e h

/-- C3: when the upload of a registration succeeds and `indexFace` then fails,
the handler calls `S3Service.deleteImage` with the key returned by that upload
(and with no other key), never calls `UserModel.create`, answers with status
500, and leaves the `users` collection as it was. -/
theorem register_compensates_index_failure (env : Env) (req : RegisterRequest)
    (w w1 w2 w3 w4 : World) (name : String) (imageFile : ImageFile) (face : FaceDetail)
    (searchResult : SearchResult) (s3Result : UploadResult) (indexError : JsError)
    (hname : req.name = some name) (hvalid : jsTrim name ≠ "") (hfile : req.file = some imageFile)
    (hdet : RekognitionService.detectFaces env imageFile.buffer w = (.ok [face], w1))
    (hsearch : RekognitionService.searchFacesByImage env imageFile.buffer 1 (.num 95) w1 =
      (.ok searchResult, w2))
    (hnone : searchResult.faceMatches = [])
    (hup : S3Service.uploadImage env imageFile.buffer
      (registerFileName env name (env.clock w2 0)) imageFile.mimetype w2 = (.ok s3Result, w3))
    (hidx : RekognitionService.indexFace env s3Result.key (env.uuidv4 w2) w3 =
      (.error indexError, w4)) :
    ∃ resp w', register env req w = (.ok resp, w') ∧
      resp.status = 500 ∧ resp.body.success = false ∧
      Event.call (.deleteImage s3Result.key) ∈ eventsSince w w' ∧
      (∀ key, Event.call (.deleteImage key) ∈ eventsSince w w' → key = s3Result.key) ∧
      (∀ e ∈ eventsSince w w', e.isCreate = false) ∧
      w'.users = w.users := by
  rcases hdel : S3Service.deleteImage env s3Result.key w4 with ⟨r, w5⟩
  have hrun := register_index_failure_run env req w w1 w2 w3 w4 w5 name imageFile face
    searchResult s3Result indexError r hname hvalid hfile hdet hsearch hnone hup hidx hdel
  obtain ⟨before, after, hlog, hb, ha⟩ := register_index_failure_log env w w1 w2 w3 w4 w5 name
    imageFile face searchResult s3Result indexError r hdet hsearch hup hidx hdel
  refine ⟨_, _, hrun, rfl, rfl, ?_, ?_, ?_, hlog.1⟩
  · rw [hlog.eventsSince]
    simp
  · rw [hlog.eventsSince]
    intro key hkey
    simp only [List.mem_append, List.mem_cons] at hkey
    rcases hkey with h | h | h
    · have := hb _ h
      simp [Event.noCreateNoDelete, Event.entersDeleteImage] at this
    · simpa using h
    · have := ha _ h
      simp [Event.noCreateNoDelete, Event.entersDeleteImage] at this
  · rw [hlog.eventsSince]
    intro e he
    simp only [List.mem_append, List.mem_cons] at he
    rcases he with h | rfl | h
    · have := hb _ h
      simp only [Event.noCreateNoDelete, Bool.and_eq_true, Bool.not_eq_true'] at this
      exact this.1
    · rfl
    · have := ha _ h
      simp only [Event.noCreateNoDelete, Bool.and_eq_true, Bool.not_eq_true'] at this
      exact this.1

/-- C4 (amended): when indexing fails after a successful upload, the answer is
500 whatever the compensating `deleteImage` does, and its `details` field is
the message of the indexing error when that delete returns, and the message of
the delete's own error when that delete throws. -/
theorem register_reports_error_after_compensation (env : Env) (req : RegisterRequest)
    (w w1 w2 w3 w4 w5 : World) (name : String) (imageFile : ImageFile) (face : FaceDetail)
    (searchResult : SearchResult) (s3Result : UploadResult) (indexError : JsError)
    (r : Except JsError String)
    (hname : req.name = some name) (hvalid : jsTrim name ≠ "") (hfile : req.file = some imageFile)
    (hdet : RekognitionService.detectFaces env imageFile.buffer w = (.ok [face], w1))
    (hsearch : RekognitionService.searchFacesByImage env imageFile.buffer 1 (.num 95) w1 =
      (.ok searchResult, w2))
    (hnone : searchResult.faceMatches = [])
    (hup : S3Service.uploadImage env imageFile.buffer
      (registerFileName env name (env.clock w2 0)) imageFile.mimetype w2 = (.ok s3Result, w3))
    (hidx : RekognitionService.indexFace env s3Result.key (env.uuidv4 w2) w3 =
      (.error indexError, w4))
    (hdel : S3Service.deleteImage env s3Result.key w4 = (r, w5)) :
    ∃ resp, register env req w = (.ok resp, w5) ∧ resp.status = 500 ∧
      ((∃ k, r = .ok k) → resp.body.details = some indexError.message) ∧
      (∀ deleteError, r = .error deleteError →
        resp.body.details = some deleteError.message) := by
  have hrun := register_index_failure_run env req w w1 w2 w3 w4 w5 name imageFile face
    searchResult s3Result indexError r hname hvalid hfile hdet hsearch hnone hup hidx hdel
  refine ⟨_, hrun, rfl, ?_, ?_⟩
  · rintro ⟨k, rfl⟩
    rfl
  · rintro deleteError rfl
    rfl

/-- C1 on a sample: a provider that finds no face in Alice's image. -/
theorem register_rejects_unless_one_face_witness :
    ∃ resp w', register (sampleEnv rekNoFace s3Accepts) aliceRequest emptyWorld = (.ok resp, w') ∧
      resp.status = 400 ∧ resp.body.success = false ∧
      w'.users = emptyWorld.users ∧ ∀ e ∈ eventsSince emptyWorld w', e.commits = false :=
  register_rejects_unless_one_face (sampleEnv rekNoFace s3Accepts) aliceRequest emptyWorld
    ((emptyWorld.log (.call (.detectFaces [1, 2, 3]))).log (.ok (.detectFaces [1, 2, 3])))
    "Alice" sampleImage [] rfl (by decide) rfl rfl (Or.inl rfl)

/-- C2 (as stated) fails: Alice's face, already registered, is sent again to
a registry whose lookup throws.  The request passes validation, one face is
detected, the search at threshold 95 returns a match, and the answer is 500,
not 409. -/
theorem register_lookup_failure_answers_500 :
    aliceRequest.name = some "Alice" ∧ jsTrim "Alice" ≠ "" ∧
    aliceRequest.file = some sampleImage ∧
    (∃ w1 w2 searchResult,
      RekognitionService.detectFaces lookupFailsEnv sampleImage.buffer aliceWorld =
        (.ok [{}], w1) ∧
      RekognitionService.searchFacesByImage lookupFailsEnv sampleImage.buffer 1 (.num 95) w1 =
        (.ok searchResult, w2) ∧
      searchResult.faceMatches = [sampleMatch]) ∧
    ∃ resp w', register lookupFailsEnv aliceRequest aliceWorld = (.ok resp, w') ∧
      resp.status = 500 ∧ resp.status ≠ 409 ∧ resp.body.existingUser = none :=
  ⟨rfl, by decide, rfl, ⟨_, _, _, rfl, rfl, rfl⟩, _, _, rfl, rfl, by decide, rfl⟩

/-- C2 (amended) on a sample: Alice's face, already registered, is sent
again, and the registry lookup returns her record. -/
theorem register_conflict_on_match_witness :
    ∃ resp w', register (sampleEnv rekKnownFace s3Accepts) aliceRequest aliceWorld =
        (.ok resp, w') ∧
      w'.users = aliceWorld.users ∧
      (∀ e ∈ eventsSince aliceWorld w', e.commits = false) ∧
      resp.status = 409 ∧
      resp.body.existingUser = some (some { id := "user-1", name := "Alice" }) := by
  obtain ⟨resp, w', hrun, husers, hquiet, _, hfound, _⟩ :=
    register_conflict_on_match (sampleEnv rekKnownFace s3Accepts) aliceRequest aliceWorld
      _ _ "Alice" sampleImage {}
      { searchedFaceBoundingBox := none, searchedFaceConfidence := none
        faceMatches := [sampleMatch] }
      sampleMatch [] rfl (by decide) rfl rfl rfl rfl
  obtain ⟨h409, _, _, _, hexisting⟩ := hfound (some aliceUser) _ rfl
  exact ⟨resp, w', hrun, husers, hquiet, h409, hexisting⟩

/-- C3 on a sample: the indexing of Alice's uploaded image fails and the store accepts the delete. -/
theorem register_compensates_index_failure_witness :
    ∃ resp w', register (sampleEnv rekIndexFails s3Accepts) aliceRequest emptyWorld =
        (.ok resp, w') ∧
      resp.status = 500 ∧ resp.body.success = false ∧
      Event.call (.deleteImage "faces/uuid-alice-7.jpg") ∈ eventsSince emptyWorld w' ∧
      (∀ key, Event.call (.deleteImage key) ∈ eventsSince emptyWorld w' →
        key = "faces/uuid-alice-7.jpg") ∧
      (∀ e ∈ eventsSince emptyWorld w', e.isCreate = false) ∧
      w'.users = emptyWorld.users :=
  register_compensates_index_failure (sampleEnv rekIndexFails s3Accepts) aliceRequest emptyWorld
    _ _ _ _ "Alice" sampleImage {} _
    { key := "faces/uuid-alice-7.jpg"
      url := "https://bucket.s3.ap-south-1.amazonaws.com/faces/uuid-alice-7.jpg"
      bucket := "bucket" }
    { name := "ThrottlingException", message := "index failed" }
    rfl (by decide) rfl rfl rfl rfl rfl rfl

/-- C4 (as stated) fails: with a provider whose indexing fails with the message
`index failed` and a store that refuses the compensating delete with the
message `delete failed`, the upload succeeds, the indexing fails, and the 500
answer reports `delete failed`, not the message of the indexing error. -/
theorem register_delete_failure_masks_index_error :
    ∃ w2 w3 w4 s3Result,
      S3Service.uploadImage (sampleEnv rekIndexFails s3DeleteFails) sampleImage.buffer
          (registerFileName (sampleEnv rekIndexFails s3DeleteFails) "Alice" 7)
          sampleImage.mimetype w2 = (.ok s3Result, w3) ∧
      RekognitionService.indexFace (sampleEnv rekIndexFails s3DeleteFails) s3Result.key "uuid" w3 =
        (.error { name := "ThrottlingException", message := "index failed" }, w4) ∧
      ∃ resp w', register (sampleEnv rekIndexFails s3DeleteFails) aliceRequest emptyWorld =
          (.ok resp, w') ∧
        Event.ok (.uploadImage sampleImage.buffer
          (registerFileName (sampleEnv rekIndexFails s3DeleteFails) "Alice" 7)
          sampleImage.mimetype) ∈ w'.trace ∧
        Event.err (.indexFace s3Result.key "uuid")
          { name := "ThrottlingException", message := "index failed" } ∈ w'.trace ∧
        resp.status = 500 ∧
        resp.body.details = some "delete failed" ∧
        resp.body.details ≠ some "index failed" := by
  refine ⟨(RekognitionService.searchFacesByImage (sampleEnv rekIndexFails s3DeleteFails)
      [1, 2, 3] 1 (.num 95)
      (RekognitionService.detectFaces (sampleEnv rekIndexFails s3DeleteFails) [1, 2, 3]
        emptyWorld).2).2, _, _, _, rfl, rfl, _, _, rfl, ?_, ?_, rfl, rfl, by decide⟩
  · decide
  · decide

/-- C4 (amended) on a sample: the indexing fails and the store refuses the delete. -/
theorem register_reports_error_after_compensation_witness :
    ∃ resp w5, register (sampleEnv rekIndexFails s3DeleteFails) aliceRequest emptyWorld =
        (.ok resp, w5) ∧ resp.status = 500 ∧
      ((∃ k, (.error { name := "AccessDenied", message := "delete failed" } :
          Except JsError String) = .ok k) →
        resp.body.details = some "index failed") ∧
      (∀ deleteError,
        (.error { name := "AccessDenied", message := "delete failed" } :
          Except JsError String) = .error deleteError →
        resp.body.details = some deleteError.message) :=
  ⟨_, _, (register_reports_error_after_compensation (sampleEnv rekIndexFails s3DeleteFails)
    aliceRequest emptyWorld _ _ _ _ _ "Alice" sampleImage {} _
    { key := "faces/uuid-alice-7.jpg"
      url := "https://bucket.s3.ap-south-1.amazonaws.com/faces/uuid-alice-7.jpg"
      bucket := "bucket" }
    { name := "ThrottlingException", message := "index failed" }
    (.error { name := "AccessDenied", message := "delete failed" })
    rfl (by decide) rfl rfl rfl rfl rfl rfl rfl).choose_spec⟩

/-! ## Authentication -/

/-- A search that returns has either no `error` field, or the fixed non-empty
message together with no match. -/
theorem RekognitionService.searchFacesByImage_error (env : Env) (imageBuffer : Buffer)
    (maxFaces : Nat) (faceMatchThreshold : JsNumber) (w w' : World) (sr : SearchResult)
    (h : RekognitionService.searchFacesByImage env imageBuffer maxFaces faceMatchThreshold w =
      (.ok sr, w')) :
    sr.error = none ∨
      (sr.error = some "No face detected in the provided image" ∧ sr.faceMatches = []) := by
  unfold RekognitionService.searchFacesByImage at h
  simp only [M.logged, M.bind_eq, M.pure_eq, M.andThen, M.tryCatch, M.ret, M.throw,
    rekognitionClientSend, M.lift] at h
  split at h
  · rename_i a w'' heq
    simp only [Prod.mk.injEq, Except.ok.injEq] at h
    rw [← h.1]
    split at heq
    · rename_i a' w3 heq'
      cases hs : env.rekognitionSend w3
          (.SearchFacesByImage env.rekognitionCollectionId imageBuffer maxFaces
            faceMatchThreshold) with
      | ok response =>
        simp only [hs, Prod.mk.injEq, Except.ok.injEq] at heq
        left
        rw [← heq.1]
      | error e =>
        simp only [hs] at heq
        split at heq
        · simp only [M.ret, Prod.mk.injEq, Except.ok.injEq] at heq
          right
          rw [← heq.1]
          exact ⟨rfl, rfl⟩
        · simp [M.throw] at heq
    · simp at heq
  · simp at h

theorem truthyStr_eq_false_of_none {s : Option String} (h : s = none) : truthyStr s = false := by
  subst h
  rfl

/-- C5: for an authenticate request with an image whose search and registry
lookup return, the answer is 200 with `authenticated: true` exactly when the
search result has no `error` field, has a first match, and
`UserModel.findByFaceId` of that match's `ExternalImageId` returns a record;
the answer then carries that record's id and name and the first match's
similarity and confidence.  A first match whose lookup returns no record is
answered 401 with `authenticated: false`. -/
theorem authenticate_succeeds_iff (env : Env) (req : AuthenticateRequest) (w w1 : World)
    (imageFile : ImageFile) (searchResult : SearchResult)
    (hfile : req.file = some imageFile)
    (hsearch : RekognitionService.searchFacesByImage env imageFile.buffer 1
      ((env.parseFloat req.threshold).orElse (.num 80)) w = (.ok searchResult, w1))
    (hfind : ∀ m rest, searchResult.faceMatches = m :: rest →
      ∃ found w2, UserModel.findByFaceId env m.Face.ExternalImageId w1 = (.ok found, w2)) :
    ∃ resp w', authenticate env req w = (.ok resp, w') ∧
      ((resp.status = 200 ∧ resp.body.authenticated = some true) ↔
        (searchResult.error = none ∧ ∃ m rest user w2,
          searchResult.faceMatches = m :: rest ∧
          UserModel.findByFaceId env m.Face.ExternalImageId w1 = (.ok (some user), w2))) ∧
      (∀ m rest user w2, searchResult.error = none → searchResult.faceMatches = m :: rest →
        UserModel.findByFaceId env m.Face.ExternalImageId w1 = (.ok (some user), w2) →
        resp.body.data =
          some (.authenticated user._id user.name m.Similarity m.Face.Confidence
            user.s3ImageUrl)) ∧
      (∀ m rest w2, searchResult.faceMatches = m :: rest →
        UserModel.findByFaceId env m.Face.ExternalImageId w1 = (.ok none, w2) →
        resp.status = 401 ∧ resp.body.authenticated = some false) := by
  rcases RekognitionService.searchFacesByImage_error env _ _ _ _ _ _ hsearch with herr | ⟨herr, hnil⟩
  · have htr := truthyStr_eq_false_of_none herr
    cases hm : searchResult.faceMatches with
    | nil =>
      have h : authenticate env req w =
          (.ok { status := 401
                 body :=
                  { success := false
                    error := some "Face not recognized. User not registered."
                    authenticated := some false } },
            w1) := by
        simp [authenticate, hfile, M.tryCatch, M.andThen, hsearch, htr, hm, M.ret]
      refine ⟨_, _, h, ?_, ?_, ?_⟩
      · simp
      · intro m rest user w2 _ hcons
        simp at hcons
      · intro m rest w2 hcons
        simp at hcons
    | cons m rest =>
      obtain ⟨found, w2, hf⟩ := hfind m rest hm
      cases found with
      | none =>
        have h : authenticate env req w =
            (.ok { status := 401
                   body :=
                    { success := false
                      error := some "User record not found"
                      authenticated := some false } },
              w2) := by
          simp [authenticate, hfile, M.tryCatch, M.andThen, hsearch, htr, hm, hf, M.ret]
        refine ⟨_, _, h, ?_, ?_, ?_⟩
        · simp only [List.cons.injEq]
          constructor
          · rintro ⟨h200, _⟩
            simp at h200
          · rintro ⟨_, m', rest', user, w2', ⟨rfl, rfl⟩, hf'⟩
            rw [hf] at hf'
            simp at hf'
        · intro m' rest' user w2' _ hcons hf'
          simp only [List.cons.injEq] at hcons
          obtain ⟨rfl, rfl⟩ := hcons
          rw [hf] at hf'
          simp at hf'
        · intro m' rest' w2' _ _
          exact ⟨rfl, rfl⟩
      | some user =>
        have h : authenticate env req w =
            (.ok { status := 200
                   body :=
                    { success := true
                      message := some "Authentication successful"
                      authenticated := some true
                      data :=
                        some (.authenticated user._id user.name m.Similarity m.Face.Confidence
                          user.s3ImageUrl) } },
              w2) := by
          simp [authenticate, hfile, M.tryCatch, M.andThen, hsearch, htr, hm, hf, M.ret]
        refine ⟨_, _, h, ?_, ?_, ?_⟩
        · simp only [true_and, and_self, true_iff]
          exact ⟨herr, m, rest, user, w2, rfl, hf⟩
        · intro m' rest' user' w2' _ hcons hf'
          simp only [List.cons.injEq] at hcons
          obtain ⟨rfl, rfl⟩ := hcons
          rw [hf] at hf'
          simp only [Prod.mk.injEq, Except.ok.injEq, Option.some.injEq] at hf'
          rw [← hf'.1]
        · intro m' rest' w2' hcons hf'
          simp only [List.cons.injEq] at hcons
          obtain ⟨rfl, rfl⟩ := hcons
          rw [hf] at hf'
          simp at hf'
  · have htr : truthyStr searchResult.error = true := by
      rw [herr]
      decide
    have h : authenticate env req w =
        (.ok { status := 400
               body :=
                { success := false
                  error := searchResult.error
                  authenticated := some false } },
          w1) := by
      simp [authenticate, hfile, M.tryCatch, M.andThen, hsearch, htr, M.ret]
    refine ⟨_, _, h, ?_, ?_, ?_⟩
    · simp [herr]
    · intro m rest user w2 hnone
      rw [herr] at hnone
      simp at hnone
    · intro m rest w2 hcons
      rw [hnil] at hcons
      simp at hcons

/-- C5 on a sample: Alice's face is recognised and her record is found. -/
theorem authenticate_succeeds_iff_witness :
    ∃ resp w', authenticate (sampleEnv rekKnownFace s3Accepts) plainAuthenticate aliceWorld =
        (.ok resp, w') ∧
      resp.status = 200 ∧ resp.body.authenticated = some true ∧
      resp.body.data = some (.authenticated "user-1" "Alice" (some 98) (some 99)
        (some "https://bucket.s3.ap-south-1.amazonaws.com/faces/uuid-alice-7.jpg")) := by
  obtain ⟨resp, w', hrun, hiff, hdata, _⟩ :=
    authenticate_succeeds_iff (sampleEnv rekKnownFace s3Accepts) plainAuthenticate aliceWorld
      _ sampleImage
      { searchedFaceBoundingBox := none, searchedFaceConfidence := none
        faceMatches := [sampleMatch] }
      rfl rfl
      (fun m rest h => by
        cases h
        exact ⟨_, _, rfl⟩)
  have hrec : UserModel.findByFaceId (sampleEnv rekKnownFace s3Accepts)
      sampleMatch.Face.ExternalImageId
      (RekognitionService.searchFacesByImage (sampleEnv rekKnownFace s3Accepts) [1, 2, 3] 1
        (.num 80) aliceWorld).2 = (.ok (some aliceUser), _) := rfl
  have h200 := hiff.2 ⟨rfl, sampleMatch, [], aliceUser, _, rfl, hrec⟩
  exact ⟨resp, w', hrun, h200.1, h200.2, hdata sampleMatch [] aliceUser _ rfl rfl hrec⟩

theorem M.Calls.andThen_call {α β : Type} {m : M α} {f : α → M β} {c : Call} {P : Event → Bool}
    (hm : m.Calls c P) (hf : ∀ a, (f a).Frames P) : (M.andThen m f).Calls c P := by
  intro w
  obtain ⟨l, hl, hP⟩ := hm w
  unfold M.andThen
  rcases hmw : m w with ⟨r, w'⟩
  rw [hmw] at hl
  cases r with
  | error e => exact ⟨l, hl, hP⟩
  | ok a =>
    obtain ⟨l', hl', hP'⟩ := hf a w'
    refine ⟨l ++ l', by simpa using hl.trans hl', ?_⟩
    intro e he
    rcases List.mem_append.1 he with h | h
    · exact hP e h
    · exact hP' e h

theorem M.Calls.tryCatch_call {α : Type} {m : M α} {f : JsError → M α} {c : Call}
    {P : Event → Bool} (hm : m.Calls c P) (hf : ∀ e, (f e).Frames P) :
    (M.tryCatch m f).Calls c P := by
  intro w
  obtain ⟨l, hl, hP⟩ := hm w
  unfold M.tryCatch
  rcases hmw : m w with ⟨r, w'⟩
  rw [hmw] at hl
  cases r with
  | ok a => exact ⟨l, hl, hP⟩
  | error e =>
    obtain ⟨l', hl', hP'⟩ := hf e w'
    refine ⟨l ++ l', by simpa using hl.trans hl', ?_⟩
    intro e he
    rcases List.mem_append.1 he with h | h
    · exact hP e h
    · exact hP' e h

theorem allows_not_entersSearch (c : Call)
    (hc : Event.entersSearch (.call c) = false) : Allows (fun e => !e.entersSearch) c := by
  refine ⟨?_, ?_, fun e => ?_⟩
  · simp [hc]
  · simp [Event.entersSearch]
  · simp [Event.entersSearch]

theorem ends_not_entersSearch (c : Call) : Ends (fun e => !e.entersSearch) c := by
  refine ⟨?_, fun e => ?_⟩
  · simp [Event.entersSearch]
  · simp [Event.entersSearch]

/-- What an authenticate request with an image logs: first the entry of the one
search, with `maxFaces = 1` and the threshold `parseFloat(threshold) || 80`,
and after it no further entry of a search. -/
theorem authenticate_searches_once (env : Env) (req : AuthenticateRequest) (w : World)
    (imageFile : ImageFile) (hfile : req.file = some imageFile) :
    ∃ l, eventsSince w (authenticate env req w).2 =
        .call (.searchFacesByImage imageFile.buffer 1
          ((env.parseFloat req.threshold).orElse (.num 80))) :: l ∧
      ∀ e ∈ l, e.entersSearch = false := by
  have hcalls : (authenticate env req).Calls
      (.searchFacesByImage imageFile.buffer 1 ((env.parseFloat req.threshold).orElse (.num 80)))
      (fun e => !e.entersSearch) := by
    unfold authenticate
    simp only [hfile, M.bind_eq, M.pure_eq]
    refine M.Calls.tryCatch_call (M.Calls.andThen_call ?_ (fun searchResult => ?_))
      (fun e => M.Frames.ret _ _)
    · exact RekognitionService.searchFacesByImage_calls env _ _ _ _ (ends_not_entersSearch _)
        (allows_not_entersSearch .ensureCollectionExists rfl)
    · split
      · exact M.Frames.ret _ _
      · split
        · exact M.Frames.ret _ _
        · rename_i matchedFace rest _
          refine M.Frames.andThen
            ((UserModel.findByFaceId_calls env matchedFace.Face.ExternalImageId _
              (ends_not_entersSearch _)).frames
              (allows_not_entersSearch (.findByFaceId matchedFace.Face.ExternalImageId) rfl).1)
            (fun user => ?_)
          split
          · exact M.Frames.ret _ _
          · exact M.Frames.ret _ _
  obtain ⟨l, hl, hP⟩ := hcalls w
  refine ⟨l, hl.eventsSince, ?_⟩
  intro e he
  simpa using hP e he

/-- C6 at the threshold `0`: `parseFloat` gives the number 0, and the search is
entered once, with threshold 80 and not with threshold 0. -/
theorem authenticate_zero_threshold_searches_at_default :
    sampleParseFloat zeroThresholdAuthenticate.threshold = .num 0 ∧
    (eventsSince aliceWorld
      (authenticate (sampleEnv rekKnownFace s3Accepts) zeroThresholdAuthenticate
        aliceWorld).2).filter Event.entersSearch =
      [.call (.searchFacesByImage sampleImage.buffer 1 (.num 80))] := by
  decide

/-! ## Verification -/

/-- C7: for a verify request with an image, an existing target user and a
search result without an `error` field, the answer is 200 with
`verified: true` exactly when some returned match has the target user's
correlation id as `ExternalImageId` (equal as `===` takes it: `null` and
`undefined` are different), and it then carries the similarity and
confidence of the first such match in the returned order; otherwise the answer
is 401 with the error `Face does not match the registered user`,
`verified: false` and the target's id and name, whoever else the matches
belong to. -/
theorem verify_matches_target (env : Env) (req : VerifyRequest) (w w1 w2 : World)
    (imageFile : ImageFile) (user : User) (searchResult : SearchResult)
    (hfile : req.file = some imageFile)
    (huser : UserModel.findById env req.userId w = (.ok (some user), w1))
    (hsearch : RekognitionService.searchFacesByImage env imageFile.buffer 5
      ((env.parseFloat req.threshold).orElse (.num 80)) w1 = (.ok searchResult, w2))
    (herr : searchResult.error = none) :
    ∃ resp, verify env req w = (.ok resp, w2) ∧
      ((resp.status = 200 ∧ resp.body.verified = some true) ↔
        ∃ m ∈ searchResult.faceMatches, m.Face.ExternalImageId = user.faceId) ∧
      (∀ earlier m later, searchResult.faceMatches = earlier ++ m :: later →
        (∀ x ∈ earlier, x.Face.ExternalImageId ≠ user.faceId) →
        m.Face.ExternalImageId = user.faceId →
        resp.body.data =
          some (.verified user._id user.name m.Similarity m.Face.Confidence)) ∧
      ((∀ m ∈ searchResult.faceMatches, m.Face.ExternalImageId ≠ user.faceId) →
        resp =
          { status := 401
            body :=
              { success := false
                error := some "Face does not match the registered user"
                verified := some false
                userId := some user._id
                userName := some user.name } }) := by
  have htr := truthyStr_eq_false_of_none herr
  cases hfind : searchResult.faceMatches.find?
      (fun m => decide (m.Face.ExternalImageId = user.faceId)) with
  | none =>
    have hno : ∀ m ∈ searchResult.faceMatches, m.Face.ExternalImageId ≠ user.faceId := by
      intro m hm
      simpa using List.find?_eq_none.1 hfind m hm
    have h : verify env req w =
        (.ok { status := 401
               body :=
                { success := false
                  error := some "Face does not match the registered user"
                  verified := some false
                  userId := some user._id
                  userName := some user.name } },
          w2) := by
      simp [verify, hfile, M.tryCatch, M.andThen, huser, hsearch, htr, hfind, M.ret]
    refine ⟨_, h, ?_, ?_, ?_⟩
    · constructor
      · rintro ⟨h200, _⟩
        simp at h200
      · rintro ⟨m, hm, heq⟩
        exact absurd heq (hno m hm)
    · intro earlier m later hsplit _ heq
      have hm : m ∈ searchResult.faceMatches := by
        rw [hsplit]
        simp
      exact absurd heq (hno m hm)
    · intro _
      rfl
  | some matchingFace =>
    obtain ⟨hp, pre, post, hsplit, hpre⟩ := List.find?_eq_some.1 hfind
    have hp' : matchingFace.Face.ExternalImageId = user.faceId := by simpa using hp
    have h : verify env req w =
        (.ok { status := 200
               body :=
                { success := true
                  message := some "Face verified successfully"
                  verified := some true
                  data :=
                    some (.verified user._id user.name matchingFace.Similarity
                      matchingFace.Face.Confidence) } },
          w2) := by
      simp [verify, hfile, M.tryCatch, M.andThen, huser, hsearch, htr, hfind, M.ret]
    refine ⟨_, h, ?_, ?_, ?_⟩
    · simp only [true_and, and_self, true_iff]
      refine ⟨matchingFace, ?_, hp'⟩
      rw [hsplit]
      simp
    · intro earlier m later hsplit' hearlier heq
      have hfind' : searchResult.faceMatches.find?
          (fun m => decide (m.Face.ExternalImageId = user.faceId)) = some m := by
        rw [List.find?_eq_some]
        refine ⟨by simpa using heq, earlier, later, hsplit', ?_⟩
        intro x hx
        simpa using hearlier x hx
      rw [hfind] at hfind'
      simp only [Option.some.injEq] at hfind'
      rw [hfind']
    · intro hno
      have hm : matchingFace ∈ searchResult.faceMatches := by
        rw [hsplit]
        simp
      exact absurd hp' (hno matchingFace hm)

/-- C7 on a sample: Alice's face, verified against Bob, does not match although it matches Alice. -/
theorem verify_matches_target_witness :
    ∃ resp, verify (sampleEnv rekKnownFace s3Accepts) verifyAgainstBob twoUserWorld =
        (.ok resp, (verify (sampleEnv rekKnownFace s3Accepts) verifyAgainstBob twoUserWorld).2) ∧
      resp =
        { status := 401
          body :=
            { success := false
              error := some "Face does not match the registered user"
              verified := some false
              userId := some "user-2"
              userName := some "Bob" } } := by
  obtain ⟨resp, hrun, _, _, h401⟩ :=
    verify_matches_target (sampleEnv rekKnownFace s3Accepts) verifyAgainstBob twoUserWorld
      _ _ sampleImage bobUser
      { searchedFaceBoundingBox := none, searchedFaceConfidence := none
        faceMatches := [sampleMatch] }
      rfl rfl rfl rfl
  refine ⟨resp, ?_, h401 (by decide)⟩
  rw [hrun]

/-- The comparison `===` keeps `null` and `undefined` apart: a record stored with
`faceId: null` is not matched by a face without `ExternalImageId`, and the
answer is 401. -/
theorem verify_null_faceId_differs_from_absent :
    ∃ w', verify (sampleEnv rekAnonymousMatch s3Accepts) verifyAgainstNullFaceId
        nullFaceIdWorld =
      (.ok
        { status := 401
          body :=
            { success := false
              error := some "Face does not match the registered user"
              verified := some false
              userId := some "user-3"
              userName := some "Carol" } },
        w') :=
  ⟨_, rfl⟩

/-! ## Deletion -/

/-- The two outcomes of `UserModel.findById`. -/
theorem UserModel.findById_outcome (env : Env) (id : String) (w w' : World)
    (r : Except JsError (Option User)) (h : UserModel.findById env id w = (r, w')) :
    (∃ found, r = .ok found ∧ Logs w w' [.call (.findById id), .ok (.findById id)]) ∨
    (∃ e, r = .error e ∧ Logs w w' [.call (.findById id), .err (.findById id) e]) := by
  unfold UserModel.findById M.logged Db.findOne at h
  cases hf : env.dbFail (w.log (.call (.findById id))) (.findOne (.byId id)) with
  | some e =>
    simp only [hf, Prod.mk.injEq] at h
    right
    refine ⟨e, h.1.symm, ?_⟩
    rw [← h.2]
    simp [Logs, World.log]
  | none =>
    simp only [hf, Prod.mk.injEq] at h
    left
    refine ⟨_, h.1.symm, ?_⟩
    rw [← h.2]
    simp [Logs, World.log]

/-- The two outcomes of the statement
`if (user.rekognitionFaceId) { await RekognitionService.deleteFace(...) }`. -/
theorem deleteFace_step_outcome (env : Env) (field : Option String) (w w' : World)
    (r : Except JsError Unit)
    (h : M.whenTruthy field (fun faceId => RekognitionService.deleteFace env faceId) w =
      (r, w')) :
    (r = .ok () ∧ Logs w w' (deleteFaceEvents field)) ∨
    (∃ faceId e, r = .error e ∧
      Logs w w' [.call (.deleteFace faceId), .err (.deleteFace faceId) e]) := by
  cases field with
  | none =>
    simp only [M.whenTruthy, M.ret, Prod.mk.injEq] at h
    left
    refine ⟨h.1.symm, ?_⟩
    rw [← h.2]
    exact Logs.refl w
  | some faceId =>
    by_cases hempty : faceId = ""
    · simp only [M.whenTruthy, hempty, if_true, M.ret, Prod.mk.injEq] at h
      left
      refine ⟨h.1.symm, ?_⟩
      rw [← h.2]
      simp [deleteFaceEvents, hempty, Logs.refl]
    · simp only [M.whenTruthy, hempty, if_false, M.andThen, RekognitionService.deleteFace,
        M.logged, M.bind_eq, M.pure_eq, rekognitionClientSend, M.lift, M.ret] at h
      cases hs : env.rekognitionSend (w.log (.call (.deleteFace faceId)))
          (.DeleteFaces env.rekognitionCollectionId [faceId]) with
      | ok response =>
        simp only [hs, Prod.mk.injEq] at h
        left
        refine ⟨h.1.symm, ?_⟩
        rw [← h.2]
        simp [deleteFaceEvents, hempty, Logs, World.log]
      | error e =>
        simp only [hs, Prod.mk.injEq] at h
        right
        refine ⟨faceId, e, h.1.symm, ?_⟩
        rw [← h.2]
        simp [Logs, World.log]

/-- The two outcomes of the statement
`if (user.s3ImageKey) { await S3Service.deleteImage(...) }`. -/
theorem deleteImage_step_outcome (env : Env) (field : Option String) (w w' : World)
    (r : Except JsError Unit)
    (h : M.whenTruthy field (fun key => S3Service.deleteImage env key) w = (r, w')) :
    (r = .ok () ∧ Logs w w' (deleteImageEvents field)) ∨
    (∃ key e, r = .error e ∧
      Logs w w' [.call (.deleteImage key), .err (.deleteImage key) e]) := by
  cases field with
  | none =>
    simp only [M.whenTruthy, M.ret, Prod.mk.injEq] at h
    left
    refine ⟨h.1.symm, ?_⟩
    rw [← h.2]
    exact Logs.refl w
  | some key =>
    by_cases hempty : key = ""
    · simp only [M.whenTruthy, hempty, if_true, M.ret, Prod.mk.injEq] at h
      left
      refine ⟨h.1.symm, ?_⟩
      rw [← h.2]
      simp [deleteImageEvents, hempty, Logs.refl]
    · simp only [M.whenTruthy, hempty, if_false, M.andThen, S3Service.deleteImage,
        M.logged, M.bind_eq, M.pure_eq, s3ClientSend, M.lift, M.ret] at h
      cases hs : env.s3Send (w.log (.call (.deleteImage key)))
          (.DeleteObject env.s3Bucket key) with
      | ok response =>
        simp only [hs, Prod.mk.injEq] at h
        left
        refine ⟨h.1.symm, ?_⟩
        rw [← h.2]
        simp [deleteImageEvents, hempty, Logs, World.log]
      | error e =>
        simp only [hs, Prod.mk.injEq] at h
        right
        refine ⟨key, e, h.1.symm, ?_⟩
        rw [← h.2]
        simp [Logs, World.log]

/-- The two outcomes of `UserModel.deleteById`: it returns and the first
document with that id is gone, or it throws and the collection is as before. -/
theorem UserModel.deleteById_outcome (env : Env) (id : String) (w w' : World)
    (r : Except JsError Unit) (h : UserModel.deleteById env id w = (r, w')) :
    (r = .ok () ∧ w'.users = w.users.eraseP (fun u => decide (u._id = id)) ∧
      w'.trace = w.trace ++ [.call (.deleteById id), .ok (.deleteById id)]) ∨
    (∃ e, r = .error e ∧ Logs w w' [.call (.deleteById id), .err (.deleteById id) e]) := by
  unfold UserModel.deleteById M.logged Db.deleteOne at h
  cases hf : env.dbFail (w.log (.call (.deleteById id))) (.deleteOne (.byId id)) with
  | some e =>
    simp only [hf, Prod.mk.injEq] at h
    right
    refine ⟨e, h.1.symm, ?_⟩
    rw [← h.2]
    simp [Logs, World.log]
  | none =>
    simp only [hf, Prod.mk.injEq] at h
    left
    refine ⟨h.1.symm, ?_, ?_⟩
    · rw [← h.2]
      rfl
    · rw [← h.2]
      simp [World.log]

theorem deleteFaceEvents_ok (field : Option String) :
    ∀ e ∈ deleteFaceEvents field, e.externalDeleteFailed = false ∧ e.callOf.deletes = true := by
  cases field with
  | none => simp [deleteFaceEvents]
  | some faceId =>
    by_cases h : faceId = "" <;>
      simp [deleteFaceEvents, h, Event.externalDeleteFailed, Event.callOf, Call.deletes]

theorem deleteImageEvents_ok (field : Option String) :
    ∀ e ∈ deleteImageEvents field, e.externalDeleteFailed = false ∧ e.callOf.deletes = true := by
  cases field with
  | none => simp [deleteImageEvents]
  | some key =>
    by_cases h : key = "" <;>
      simp [deleteImageEvents, h, Event.externalDeleteFailed, Event.callOf, Call.deletes]

theorem deleteFaceEvents_no_deleteById (field : Option String) (id : String) :
    Event.call (.deleteById id) ∉ deleteFaceEvents field := by
  cases field with
  | none => simp [deleteFaceEvents]
  | some faceId => by_cases h : faceId = "" <;> simp [deleteFaceEvents, h]

theorem deleteImageEvents_no_deleteById (field : Option String) (id : String) :
    Event.call (.deleteById id) ∉ deleteImageEvents field := by
  cases field with
  | none => simp [deleteImageEvents]
  | some key => by_cases h : key = "" <;> simp [deleteImageEvents, h]

/-- C8: in every run of the delete-user handler: when the id resolves to no
record the answer is 404 and no delete of any kind is called; when it resolves
to a record, `UserModel.deleteById` is entered only after the face-index delete
(when the record has a `rekognitionFaceId`) and the image delete (when it has
an `s3ImageKey`) have been entered, in that order, and have returned without
error; and when either external delete throws, the answer is 500, the `users`
collection is as before and `deleteById` is not called. -/
theorem deleteUser_tears_down_in_order (env : Env) (userId : String) (w : World) :
    ∃ resp w', deleteUser env userId w = (.ok resp, w') ∧
      (∀ w1, UserModel.findById env userId w = (.ok none, w1) →
        resp.status = 404 ∧ w'.users = w.users ∧
        ∀ e ∈ eventsSince w w', e.callOf.deletes = false) ∧
      (∀ user w1, UserModel.findById env userId w = (.ok (some user), w1) →
        (Event.call (.deleteById userId) ∈ eventsSince w w' →
          ∃ ending, eventsSince w w' =
            [.call (.findById userId), .ok (.findById userId)] ++
              deleteFaceEvents user.rekognitionFaceId ++ deleteImageEvents user.s3ImageKey ++
              [.call (.deleteById userId), ending]) ∧
        ((∃ e ∈ eventsSince w w', e.externalDeleteFailed = true) →
          resp.status = 500 ∧ w'.users = w.users ∧
          Event.call (.deleteById userId) ∉ eventsSince w w')) := by
  rcases h0 : UserModel.findById env userId w with ⟨r0, w1⟩
  rcases UserModel.findById_outcome env userId w w1 r0 h0 with ⟨found, rfl, hl0⟩ | ⟨e, rfl, hl0⟩
  · cases found with
    | none =>
      have h : deleteUser env userId w =
          (.ok { status := 404, body := { success := false, error := some "User not found" } },
            w1) := by
        simp [deleteUser, M.tryCatch, M.andThen, h0, M.ret]
      refine ⟨_, _, h, ?_, ?_⟩
      · intro _ _
        refine ⟨rfl, hl0.1, ?_⟩
        rw [hl0.eventsSince]
        simp [Event.callOf, Call.deletes]
      · intro user w1' hu
        simp at hu
    | some user =>
      rcases h1 : M.whenTruthy user.rekognitionFaceId
          (fun faceId => RekognitionService.deleteFace env faceId) w1 with ⟨r1, w2⟩
      rcases deleteFace_step_outcome env _ w1 w2 r1 h1 with ⟨rfl, hl1⟩ | ⟨faceId, e, rfl, hl1⟩
      · rcases h2 : M.whenTruthy user.s3ImageKey
            (fun key => S3Service.deleteImage env key) w2 with ⟨r2, w3⟩
        rcases deleteImage_step_outcome env _ w2 w3 r2 h2 with ⟨rfl, hl2⟩ | ⟨key, e, rfl, hl2⟩
        · rcases h3 : UserModel.deleteById env userId w3 with ⟨r3, w4⟩
          have hl02 := (hl0.trans hl1).trans hl2
          rcases UserModel.deleteById_outcome env userId w3 w4 r3 h3 with
            ⟨rfl, _, ht3⟩ | ⟨e, rfl, hl3⟩
          · have h : deleteUser env userId w =
                (.ok { status := 200
                       body :=
                        { success := true
                          message := some "User deleted successfully"
                          data := some (.deleted user._id user.name) } },
                  w4) := by
              simp [deleteUser, M.tryCatch, M.andThen, h0, h1, h2, h3, M.ret]
            have hev : eventsSince w w4 =
                [.call (.findById userId), .ok (.findById userId)] ++
                  deleteFaceEvents user.rekognitionFaceId ++ deleteImageEvents user.s3ImageKey ++
                  [.call (.deleteById userId), .ok (.deleteById userId)] := by
              simp [eventsSince, ht3, hl02.2]
            refine ⟨_, _, h, ?_, ?_⟩
            · intro w1' hn
              simp at hn
            · intro user' w1' hu
              simp only [Prod.mk.injEq, Except.ok.injEq, Option.some.injEq] at hu
              obtain ⟨⟨rfl⟩, _⟩ := hu
              refine ⟨fun _ => ⟨_, hev⟩, ?_⟩
              rintro ⟨ev, hmem, hfail⟩
              rw [hev] at hmem
              simp only [List.mem_append, List.mem_cons, List.mem_singleton,
                List.not_mem_nil, or_false] at hmem
              rcases hmem with (((rfl | rfl) | hm) | hm) | rfl | rfl
              · simp [Event.externalDeleteFailed] at hfail
              · simp [Event.externalDeleteFailed] at hfail
              · rw [(deleteFaceEvents_ok _ ev hm).1] at hfail
                simp at hfail
              · rw [(deleteImageEvents_ok _ ev hm).1] at hfail
                simp at hfail
              · simp [Event.externalDeleteFailed] at hfail
              · simp [Event.externalDeleteFailed] at hfail
          · have hlog := hl02.trans hl3
            have h : deleteUser env userId w =
                (.ok { status := 500
                       body :=
                        { success := false
                          error := some "Failed to delete user"
                          details := some e.message } },
                  w4) := by
              simp [deleteUser, M.tryCatch, M.andThen, h0, h1, h2, h3, M.ret]
            refine ⟨_, _, h, ?_, ?_⟩
            · intro w1' hn
              simp at hn
            · intro user' w1' hu
              simp only [Prod.mk.injEq, Except.ok.injEq, Option.some.injEq] at hu
              obtain ⟨⟨rfl⟩, _⟩ := hu
              refine ⟨fun _ => ⟨_, hlog.eventsSince⟩, ?_⟩
              rintro ⟨ev, hmem, hfail⟩
              rw [hlog.eventsSince] at hmem
              simp only [List.mem_append, List.mem_cons, List.mem_singleton,
                List.not_mem_nil, or_false] at hmem
              rcases hmem with (((rfl | rfl) | hm) | hm) | rfl | rfl
              · simp [Event.externalDeleteFailed] at hfail
              · simp [Event.externalDeleteFailed] at hfail
              · rw [(deleteFaceEvents_ok _ ev hm).1] at hfail
                simp at hfail
              · rw [(deleteImageEvents_ok _ ev hm).1] at hfail
                simp at hfail
              · simp [Event.externalDeleteFailed] at hfail
              · simp [Event.externalDeleteFailed] at hfail
        · have hlog := (hl0.trans hl1).trans hl2
          have h : deleteUser env userId w =
              (.ok { status := 500
                     body :=
                      { success := false
                        error := some "Failed to delete user"
                        details := some e.message } },
                w3) := by
            simp [deleteUser, M.tryCatch, M.andThen, h0, h1, h2, M.ret]
          have hnot : Event.call (.deleteById userId) ∉ eventsSince w w3 := by
            rw [hlog.eventsSince]
            simp [deleteFaceEvents_no_deleteById]
          refine ⟨_, _, h, ?_, ?_⟩
          · intro w1' hn
            simp at hn
          · intro user' w1' hu
            exact ⟨fun hmem => absurd hmem hnot, fun _ => ⟨rfl, hlog.1, hnot⟩⟩
      · have hlog := hl0.trans hl1
        have h : deleteUser env userId w =
            (.ok { status := 500
                   body :=
                    { success := false
                      error := some "Failed to delete user"
                      details := some e.message } },
              w2) := by
          simp [deleteUser, M.tryCatch, M.andThen, h0, h1, M.ret]
        have hnot : Event.call (.deleteById userId) ∉ eventsSince w w2 := by
          rw [hlog.eventsSince]
          simp
        refine ⟨_, _, h, ?_, ?_⟩
        · intro w1' hn
          simp at hn
        · intro user' w1' hu
          exact ⟨fun hmem => absurd hmem hnot, fun _ => ⟨rfl, hlog.1, hnot⟩⟩
  · have h : deleteUser env userId w =
        (.ok { status := 500
               body :=
                { success := false
                  error := some "Failed to delete user"
                  details := some e.message } },
          w1) := by
      simp [deleteUser, M.tryCatch, M.andThen, h0, M.ret]
    refine ⟨_, _, h, ?_, ?_⟩
    · intro w1' hn
      simp at hn
    · intro user w1' hu
      simp at hu

/-- C8 on a sample: deleting Alice logs the face delete, the image delete and then the registry delete. -/
theorem deleteUser_tears_down_in_order_witness :
    (UserModel.findById (sampleEnv rekDeletesNothing s3Accepts) "user-1" aliceWorld).1 =
        .ok (some aliceUser) ∧
      ∃ resp w', deleteUser (sampleEnv rekDeletesNothing s3Accepts) "user-1" aliceWorld =
          (.ok resp, w') ∧
        resp.status = 200 ∧ w'.users = [] ∧
        eventsSince aliceWorld w' =
          [.call (.findById "user-1"), .ok (.findById "user-1"),
            .call (.deleteFace "rek-1"), .ok (.deleteFace "rek-1"),
            .call (.deleteImage "faces/uuid-alice-7.jpg"),
            .ok (.deleteImage "faces/uuid-alice-7.jpg"),
            .call (.deleteById "user-1"), .ok (.deleteById "user-1")] := by
  obtain ⟨resp, w', hrun, _, hfound⟩ :=
    deleteUser_tears_down_in_order (sampleEnv rekDeletesNothing s3Accepts) "user-1" aliceWorld
  refine ⟨rfl, resp, w', hrun, ?_⟩
  have hconcrete : deleteUser (sampleEnv rekDeletesNothing s3Accepts) "user-1" aliceWorld =
      (.ok { status := 200
             body :=
              { success := true
                message := some "User deleted successfully"
                data := some (.deleted "user-1" "Alice") } },
        (deleteUser (sampleEnv rekDeletesNothing s3Accepts) "user-1" aliceWorld).2) := rfl
  rw [hconcrete] at hrun
  simp only [Prod.mk.injEq, Except.ok.injEq] at hrun
  obtain ⟨rfl, rfl⟩ := hrun
  exact ⟨rfl, by decide, by decide⟩

/-- C9 (as stated) fails: for the record of Alice and a face index whose delete
throws, `RekognitionService.deleteFace` fails, the delete-user handler answers
500, and the record of Alice is still in the `users` collection. -/
theorem deleteUser_face_failure_keeps_record :
    (∃ e w2, RekognitionService.deleteFace (sampleEnv rekDeleteFails s3Accepts) "rek-1"
      (UserModel.findById (sampleEnv rekDeleteFails s3Accepts) "user-1" aliceWorld).2 =
        (.error e, w2)) ∧
    ∃ resp w', deleteUser (sampleEnv rekDeleteFails s3Accepts) "user-1" aliceWorld =
        (.ok resp, w') ∧
      resp.status = 500 ∧ resp.body.success = false ∧ aliceUser ∈ w'.users :=
  ⟨⟨_, _, rfl⟩, _, _, rfl, rfl, rfl, by decide⟩

/-- C9 (amended): for an existing record with a `rekognitionFaceId`: when
`RekognitionService.deleteFace` throws, the delete-user handler answers 500 and
the `users` collection is as before; when it returns, whatever list of deleted
faces the provider reports (none for an entry removed out-of-band), and the
image delete and the registry delete return, the handler answers 200 and the
record is removed from the `users` collection. -/
theorem deleteUser_face_delete_outcomes (env : Env) (userId : String) (w w1 : World)
    (user : User) (faceId : String)
    (huser : UserModel.findById env userId w = (.ok (some user), w1))
    (hrek : user.rekognitionFaceId = some faceId) (hne : faceId ≠ "") :
    (∀ e w2, RekognitionService.deleteFace env faceId w1 = (.error e, w2) →
      ∃ resp, deleteUser env userId w = (.ok resp, w2) ∧ resp.status = 500 ∧
        resp.body.details = some e.message ∧ w2.users = w.users) ∧
    (∀ deleted w2 w3 w4, RekognitionService.deleteFace env faceId w1 = (.ok deleted, w2) →
      M.whenTruthy user.s3ImageKey (fun key => S3Service.deleteImage env key) w2 =
        (.ok (), w3) →
      UserModel.deleteById env userId w3 = (.ok (), w4) →
      ∃ resp, deleteUser env userId w = (.ok resp, w4) ∧ resp.status = 200 ∧
        resp.body.success = true ∧
        w4.users = w.users.eraseP (fun u => decide (u._id = userId)) ∧
        w4.users.length + 1 = w.users.length) := by
  rcases UserModel.findById_outcome env userId w w1 _ huser with ⟨_, _, hl0⟩ | ⟨e, he, _⟩
  swap
  · simp at he
  have hfound := UserModel.findById_ok env userId w w1 _ huser
  constructor
  · intro e w2 hdel
    have h1 : M.whenTruthy user.rekognitionFaceId
        (fun faceId => RekognitionService.deleteFace env faceId) w1 = (.error e, w2) := by
      simp [M.whenTruthy, hrek, hne, M.andThen, hdel]
    rcases deleteFace_step_outcome env _ w1 w2 _ h1 with ⟨hok, _⟩ | ⟨_, _, _, hl1⟩
    · simp at hok
    · have h : deleteUser env userId w =
          (.ok { status := 500
                 body :=
                  { success := false
                    error := some "Failed to delete user"
                    details := some e.message } },
            w2) := by
        simp [deleteUser, M.tryCatch, M.andThen, huser, h1, M.ret]
      exact ⟨_, h, rfl, rfl, (hl0.trans hl1).1⟩
  · intro deleted w2 w3 w4 hdel himg hdb
    have h1 : M.whenTruthy user.rekognitionFaceId
        (fun faceId => RekognitionService.deleteFace env faceId) w1 = (.ok (), w2) := by
      simp [M.whenTruthy, hrek, hne, M.andThen, hdel, M.ret]
    rcases deleteFace_step_outcome env _ w1 w2 _ h1 with ⟨_, hl1⟩ | ⟨_, _, herr, _⟩
    swap
    · simp at herr
    rcases deleteImage_step_outcome env _ w2 w3 _ himg with ⟨_, hl2⟩ | ⟨_, _, herr, _⟩
    swap
    · simp at herr
    rcases UserModel.deleteById_outcome env userId w3 w4 _ hdb with
      ⟨_, hu3, _⟩ | ⟨_, herr, _⟩
    swap
    · simp at herr
    have husers : w4.users = w.users.eraseP (fun u => decide (u._id = userId)) := by
      rw [hu3, ((hl0.trans hl1).trans hl2).1]
    have h : deleteUser env userId w =
        (.ok { status := 200
               body :=
                { success := true
                  message := some "User deleted successfully"
                  data := some (.deleted user._id user.name) } },
          w4) := by
      simp [deleteUser, M.tryCatch, M.andThen, huser, h1, himg, hdb, M.ret]
    refine ⟨_, h, rfl, rfl, husers, ?_⟩
    · have hmem : user ∈ w.users := List.mem_of_find?_eq_some hfound.symm
      have hp : decide (user._id = userId) = true := by
        have := List.find?_some hfound.symm
        simpa using this
      rw [husers, List.length_eraseP_of_mem hmem hp]
      have : 0 < w.users.length := List.length_pos_of_mem hmem
      omega

/-- C9 (amended) on a sample: the face index reports no deleted face, and Alice's record is removed. -/
theorem deleteUser_face_delete_outcomes_witness :
    ∃ resp w4, deleteUser (sampleEnv rekDeletesNothing s3Accepts) "user-1" aliceWorld =
        (.ok resp, w4) ∧ resp.status = 200 ∧ resp.body.success = true ∧
      w4.users = aliceWorld.users.eraseP (fun u => decide (u._id = "user-1")) ∧
      w4.users.length + 1 = aliceWorld.users.length :=
  ⟨_, _, ((deleteUser_face_delete_outcomes (sampleEnv rekDeletesNothing s3Accepts) "user-1"
    aliceWorld _ aliceUser "rek-1" rfl rfl (by decide)).2 [] _ _ _ rfl rfl rfl).choose_spec⟩

/-! ## Listing -/

/-- A listing that returns gives the window of the newest-first order. -/
theorem UserModel.findAll_ok (env : Env) (limit skip : Int) (w w' : World) (users : List User)
    (hlimit : 1 ≤ limit) (hskip : 0 ≤ skip)
    (h : UserModel.findAll env limit skip w = (.ok users, w')) :
    users = ((Db.newestFirst w.users).drop skip.toNat).take limit.toNat ∧ w'.users = w.users := by
  unfold UserModel.findAll M.logged Db.find at h
  cases hf : env.dbFail (w.log (.call (.findAll limit skip))) (.find limit skip) with
  | some e => simp [hf] at h
  | none =>
    have hs : ¬ skip < 0 := by omega
    have hl : limit ≠ 0 := by omega
    have hnat : limit.natAbs = limit.toNat := by omega
    simp only [hf, hs, if_false, hl, Prod.mk.injEq, Except.ok.injEq] at h
    rw [← h.1, ← h.2, hnat]
    exact ⟨rfl, rfl⟩

/-- A count that returns gives the number of documents. -/
theorem UserModel.count_ok (env : Env) (w w' : World) (total : Nat)
    (h : UserModel.count env w = (.ok total, w')) : total = w.users.length := by
  unfold UserModel.count M.logged Db.countDocuments at h
  cases hf : env.dbFail (w.log (.call .count)) .countDocuments with
  | some e => simp [hf] at h
  | none =>
    simp only [hf, Prod.mk.injEq, Except.ok.injEq] at h
    rw [← h.1]
    rfl

theorem Db.length_newestFirst (users : List User) :
    (Db.newestFirst users).length = users.length := by
  unfold Db.newestFirst
  exact List.length_insertionSort _ _

/-- C10: over a registry of `N` records, a listing request with limit `L ≥ 1`
and skip `S ≥ 0` whose registry calls return is answered 200 with the records at
positions `S .. S+L-1` of the newest-first order, that is `min(L, max(N - S, 0))`
users, with `total = N`, `limit = L`, `skip = S`, and `hasMore` true exactly
when `S` plus the number of returned users is less than `N`. -/
theorem getUsers_pagination (env : Env) (req : UsersRequest) (w w1 w2 : World)
    (L S : Int) (users : List User) (total : Nat)
    (hlimit : env.parseInt req.limit = some L) (hL : 1 ≤ L)
    (hskip : env.parseInt req.skip = some S) (hS : 0 ≤ S)
    (hall : UserModel.findAll env L S w = (.ok users, w1))
    (hcount : UserModel.count env w1 = (.ok total, w2)) :
    ∃ resp summaries pagination, getUsers env req w = (.ok resp, w2) ∧
      resp.status = 200 ∧ resp.body.success = true ∧
      resp.body.data = some (.listing summaries pagination) ∧
      summaries = (((Db.newestFirst w.users).drop S.toNat).take L.toNat).map
        (fun user =>
          { userId := user._id, name := user.name, imageUrl := user.s3ImageUrl
            createdAt := user.createdAt }) ∧
      (summaries.length : Int) = min L (max ((w.users.length : Int) - S) 0) ∧
      pagination.total = w.users.length ∧ pagination.limit = L ∧ pagination.skip = S ∧
      (pagination.hasMore = true ↔ S + (summaries.length : Int) < (w.users.length : Int)) := by
  obtain ⟨husers, hu1⟩ := UserModel.findAll_ok env L S w w1 users hL hS hall
  have htotal := UserModel.count_ok env w1 w2 total hcount
  rw [hu1] at htotal
  have hLor : parseIntOr env req.limit 100 = L := by
    have : L ≠ 0 := by omega
    simp [parseIntOr, hlimit, this]
  have hSor : parseIntOr env req.skip 0 = S := by
    by_cases h0 : S = 0
    · simp [parseIntOr, hskip, h0]
    · simp [parseIntOr, hskip, h0]
  have h : getUsers env req w =
      (.ok { status := 200
             body :=
              { success := true
                data :=
                  some (.listing
                    (users.map (fun user =>
                      { userId := user._id, name := user.name, imageUrl := user.s3ImageUrl
                        createdAt := user.createdAt }))
                    { total := total
                      limit := L
                      skip := S
                      hasMore := decide (S + (users.length : Int) < (total : Int)) }) } },
        w2) := by
    simp [getUsers, hLor, hSor, M.tryCatch, M.andThen, hall, hcount, M.ret]
  have hlen : (users.length : Int) = min L (max ((w.users.length : Int) - S) 0) := by
    rw [husers, List.length_take, List.length_drop, Db.length_newestFirst]
    omega
  refine ⟨_, _, _, h, rfl, rfl, rfl, ?_, ?_, htotal, rfl, rfl, ?_⟩
  · rw [husers]
  · rw [List.length_map]
    exact hlen
  · rw [List.length_map, htotal]
    simp

/-- C10 on the two examples: limit 10 and skip 0 over 25 records and over 5 records. -/
theorem getUsers_pagination_witness :
    (∃ resp summaries pagination,
      getUsers (sampleEnv rekNoFace s3Accepts) firstPage (crowdWorld 25) =
        (.ok resp, (getUsers (sampleEnv rekNoFace s3Accepts) firstPage (crowdWorld 25)).2) ∧
      resp.body.data = some (.listing summaries pagination) ∧
      summaries.length = 10 ∧ pagination.total = 25 ∧ pagination.hasMore = true) ∧
    (∃ resp summaries pagination,
      getUsers (sampleEnv rekNoFace s3Accepts) firstPage (crowdWorld 5) =
        (.ok resp, (getUsers (sampleEnv rekNoFace s3Accepts) firstPage (crowdWorld 5)).2) ∧
      resp.body.data = some (.listing summaries pagination) ∧
      summaries.length = 5 ∧ pagination.total = 5 ∧ pagination.hasMore = false) := by
  constructor
  · obtain ⟨resp, summaries, pagination, hrun, _, _, hdata, _, hlen, htotal, _, _, hmore⟩ :=
      getUsers_pagination (sampleEnv rekNoFace s3Accepts) firstPage (crowdWorld 25) _ _ 10 0
        _ _ rfl (by decide) rfl (by decide) rfl rfl
    have hN : (crowdWorld 25).users.length = 25 := by decide
    rw [hN] at hlen hmore htotal
    have hlen' : summaries.length = 10 := by omega
    refine ⟨resp, summaries, pagination, ?_, hdata, hlen', htotal, hmore.2 (by omega)⟩
    rw [hrun]
  · obtain ⟨resp, summaries, pagination, hrun, _, _, hdata, _, hlen, htotal, _, _, hmore⟩ :=
      getUsers_pagination (sampleEnv rekNoFace s3Accepts) firstPage (crowdWorld 5) _ _ 10 0
        _ _ rfl (by decide) rfl (by decide) rfl rfl
    have hN : (crowdWorld 5).users.length = 5 := by decide
    rw [hN] at hlen hmore htotal
    have hlen' : summaries.length = 5 := by omega
    refine ⟨resp, summaries, pagination, ?_, hdata, hlen', htotal, ?_⟩
    · rw [hrun]
    · cases hb : pagination.hasMore with
      | false => rfl
      | true =>
        have := hmore.1 hb
        omega

/-! ## The face provider gateway -/

/-- The model of `String.prototype.includes` decides containment: `sub` occurs
in `s` as a contiguous run of characters. -/
theorem jsIncludes_iff (s sub : String) : jsIncludes s sub = true ↔ sub.data <:+: s.data := by
  unfold jsIncludes
  rw [List.any_eq_true, List.infix_iff_prefix_suffix]
  constructor
  · rintro ⟨t, ht, hp⟩
    exact ⟨t, List.isPrefixOf_iff_prefix.1 hp, (List.mem_tails t s.data).1 ht⟩
  · rintro ⟨t, hp, ht⟩
    exact ⟨t, (List.mem_tails t s.data).2 ht, List.isPrefixOf_iff_prefix.2 hp⟩

/-- The run of `searchFacesByImage` once the collection is ensured, by the
outcome of the provider's search call. -/
theorem RekognitionService.searchFacesByImage_run (env : Env) (imageBuffer : Buffer)
    (maxFaces : Nat) (faceMatchThreshold : JsNumber) (w wE : World) (collectionId : String)
    (hens : RekognitionService.ensureCollectionExists env
      (w.log (.call (.searchFacesByImage imageBuffer maxFaces faceMatchThreshold))) =
        (.ok collectionId, wE)) :
    RekognitionService.searchFacesByImage env imageBuffer maxFaces faceMatchThreshold w =
      match env.rekognitionSend wE
        (.SearchFacesByImage env.rekognitionCollectionId imageBuffer maxFaces
          faceMatchThreshold) with
      | .ok response =>
        (.ok
          { searchedFaceBoundingBox := response.SearchedFaceBoundingBox
            searchedFaceConfidence := response.SearchedFaceConfidence
            faceMatches := response.FaceMatches.getD [] },
          wE.log (.ok (.searchFacesByImage imageBuffer maxFaces faceMatchThreshold)))
      | .error e =>
        if e.name = "InvalidParameterException" ∧ jsIncludes e.message "no faces" = true then
          (.ok
            { searchedFaceBoundingBox := none
              searchedFaceConfidence := none
              faceMatches := []
              error := some "No face detected in the provided image" },
            wE.log (.ok (.searchFacesByImage imageBuffer maxFaces faceMatchThreshold)))
        else
          (.error e,
            wE.log (.err (.searchFacesByImage imageBuffer maxFaces faceMatchThreshold) e)) := by
  unfold RekognitionService.searchFacesByImage
  simp only [M.logged, M.bind_eq, M.pure_eq, M.andThen, M.tryCatch, M.ret, M.throw,
    rekognitionClientSend, M.lift, hens]
  cases hs : env.rekognitionSend wE
      (.SearchFacesByImage env.rekognitionCollectionId imageBuffer maxFaces
        faceMatchThreshold) with
  | ok response => rfl
  | error e =>
    by_cases hc : e.name = "InvalidParameterException" ∧ jsIncludes e.message "no faces" = true
    · simp only [hc, and_self, if_true]
      rfl
    · simp only [hc, if_false]
      rfl

/-- C11: once the collection is ensured, for every error `e` the provider's
search call raises, `searchFacesByImage` returns a result with an `error` field,
no match and null searched-face fields exactly when `e.name` is
`InvalidParameterException` and `e.message` contains `no faces`; every other
error is rethrown as it is; and a provider response never gives a result with an
`error` field. -/
theorem searchFacesByImage_maps_provider_errors (env : Env) (imageBuffer : Buffer)
    (maxFaces : Nat) (faceMatchThreshold : JsNumber) (w wE : World) (collectionId : String)
    (hens : RekognitionService.ensureCollectionExists env
      (w.log (.call (.searchFacesByImage imageBuffer maxFaces faceMatchThreshold))) =
        (.ok collectionId, wE)) :
    (∀ e, env.rekognitionSend wE
        (.SearchFacesByImage env.rekognitionCollectionId imageBuffer maxFaces
          faceMatchThreshold) = .error e →
      ((∃ sr w', RekognitionService.searchFacesByImage env imageBuffer maxFaces
            faceMatchThreshold w = (.ok sr, w') ∧
          (∃ msg, sr.error = some msg ∧ msg ≠ "") ∧ sr.faceMatches = [] ∧
          sr.searchedFaceBoundingBox = none ∧ sr.searchedFaceConfidence = none) ↔
        (e.name = "InvalidParameterException" ∧ "no faces".data <:+: e.message.data)) ∧
      (¬ (e.name = "InvalidParameterException" ∧ "no faces".data <:+: e.message.data) →
        ∃ w', RekognitionService.searchFacesByImage env imageBuffer maxFaces
          faceMatchThreshold w = (.error e, w'))) ∧
    (∀ response, env.rekognitionSend wE
        (.SearchFacesByImage env.rekognitionCollectionId imageBuffer maxFaces
          faceMatchThreshold) = .ok response →
      ∃ sr w', RekognitionService.searchFacesByImage env imageBuffer maxFaces
          faceMatchThreshold w = (.ok sr, w') ∧
        sr.error = none ∧ sr.faceMatches = response.FaceMatches.getD []) := by
  have hrun := RekognitionService.searchFacesByImage_run env imageBuffer maxFaces
    faceMatchThreshold w wE collectionId hens
  constructor
  · intro e he
    rw [he] at hrun
    simp only [jsIncludes_iff] at hrun
    by_cases hc : e.name = "InvalidParameterException" ∧ "no faces".data <:+: e.message.data
    · rw [if_pos hc] at hrun
      refine ⟨⟨fun _ => hc, fun _ => ⟨_, _, hrun, ⟨_, rfl, by decide⟩, rfl, rfl, rfl⟩⟩, ?_⟩
      intro hn
      exact absurd hc hn
    · rw [if_neg hc] at hrun
      refine ⟨⟨?_, fun h => absurd h hc⟩, fun _ => ⟨_, hrun⟩⟩
      rintro ⟨sr, w', hok, _⟩
      rw [hrun] at hok
      simp at hok
  · intro response hr
    rw [hr] at hrun
    exact ⟨_, _, hrun, rfl, rfl⟩

/-- C11 on a sample: the provider raises its error for an image without a face,
and the search returns the structured result. -/
theorem searchFacesByImage_maps_provider_errors_witness :
    ∃ sr w', RekognitionService.searchFacesByImage (sampleEnv rekSearchNoFaces s3Accepts)
        [1, 2, 3] 1 (.num 80) emptyWorld = (.ok sr, w') ∧
      (∃ msg, sr.error = some msg ∧ msg ≠ "") ∧ sr.faceMatches = [] ∧
      sr.searchedFaceBoundingBox = none ∧ sr.searchedFaceConfidence = none :=
  (((searchFacesByImage_maps_provider_errors (sampleEnv rekSearchNoFaces s3Accepts) [1, 2, 3] 1
    (.num 80) emptyWorld _ "faces" rfl).1
    { name := "InvalidParameterException"
      message := "There are no faces in the image. Should be at least 1." } rfl).1).2
    ⟨rfl, (jsIncludes_iff _ _).1 (by decide)⟩

/-- The accumulator of `join` is the beginning of what it returns, and every
later element occurs in what it returns. -/
theorem intercalate_go_contains (sep : String) (l : List String) :
    ∀ acc : String, acc.data <+: (String.intercalate.go acc sep l).data ∧
      ∀ r ∈ l, r.data <:+: (String.intercalate.go acc sep l).data := by
  induction l with
  | nil =>
    intro acc
    simp [String.intercalate.go]
  | cons a rest ih =>
    intro acc
    obtain ⟨hpre, hmem⟩ := ih (acc ++ sep ++ a)
    simp only [String.intercalate.go]
    refine ⟨?_, ?_⟩
    · refine List.IsPrefix.trans ?_ hpre
      simp only [String.data_append, List.append_assoc]
      exact List.prefix_append _ _
    · intro r hr
      rcases List.mem_cons.1 hr with rfl | hr
      · refine List.IsInfix.trans ?_ hpre.isInfix
        simp only [String.data_append]
        exact (List.suffix_append _ _).isInfix
      · exact hmem r hr

/-- Every element of a list occurs in its `join`. -/
theorem intercalate_contains (sep : String) (l : List String) :
    ∀ r ∈ l, r.data <:+: (sep.intercalate l).data := by
  cases l with
  | nil => simp
  | cons a rest =>
    obtain ⟨hpre, hmem⟩ := intercalate_go_contains sep rest a
    intro r hr
    simp only [String.intercalate]
    rcases List.mem_cons.1 hr with rfl | hr
    · exact hpre.isInfix
    · exact hmem r hr

/-- The message thrown for an unindexed face names every reason of that face. -/
theorem unindexedMessage_contains (u : UnindexedFace) (reasons : List String)
    (hu : u.Reasons = some reasons) :
    ∀ r ∈ reasons, r.data <:+: (RekognitionService.unindexedMessage u).data := by
  intro r hr
  have hin := intercalate_contains ", " reasons r hr
  unfold RekognitionService.unindexedMessage
  simp only [hu, Option.map_some', truthyStr, Option.getD_some]
  by_cases hempty : ", ".intercalate reasons = ""
  · rw [hempty] at hin
    have hnil : r.data = [] := by simpa using hin
    rw [hnil]
    exact List.nil_infix
  · simp only [hempty, ne_eq, not_false_eq_true, decide_True, if_true, String.data_append]
    exact List.IsInfix.trans hin (List.suffix_append _ _).isInfix

/-- The run of `indexFace` once the collection is ensured and the provider has
answered the index call. -/
theorem RekognitionService.indexFace_run (env : Env) (s3Key externalImageId : String)
    (w wE : World) (collectionId : String) (response : RekResponse)
    (hens : RekognitionService.ensureCollectionExists env
      (w.log (.call (.indexFace s3Key externalImageId))) = (.ok collectionId, wE))
    (hresp : env.rekognitionSend wE
      (.IndexFaces env.rekognitionCollectionId env.s3Bucket s3Key externalImageId 1) =
        .ok response) :
    RekognitionService.indexFace env s3Key externalImageId w =
      match response.FaceRecords.getD [] with
      | [] =>
        match response.UnindexedFaces.getD [] with
        | u :: _ =>
          (.error (JsError.new (RekognitionService.unindexedMessage u)),
            wE.log (.err (.indexFace s3Key externalImageId)
              (JsError.new (RekognitionService.unindexedMessage u))))
        | [] =>
          (.error (JsError.new "No face detected in the image"),
            wE.log (.err (.indexFace s3Key externalImageId)
              (JsError.new "No face detected in the image")))
      | faceRecord :: _ =>
        (.ok
          { faceId := faceRecord.Face.FaceId
            boundingBox := faceRecord.Face.BoundingBox
            confidence := faceRecord.Face.Confidence
            imageId := faceRecord.Face.ImageId
            externalImageId := faceRecord.Face.ExternalImageId },
          wE.log (.ok (.indexFace s3Key externalImageId))) := by
  unfold RekognitionService.indexFace
  simp only [M.logged, M.bind_eq, M.pure_eq, M.andThen, rekognitionClientSend, M.lift, hens,
    hresp]
  cases response.FaceRecords.getD [] with
  | nil =>
    cases response.UnindexedFaces.getD [] with
    | nil => rfl
    | cons u rest => rfl
  | cons faceRecord rest => rfl

/-- C12: once the collection is ensured, for every provider response to the
index call, `indexFace` throws exactly when `FaceRecords` is absent or empty;
the message of the error thrown when the provider reports an unindexed face
holds every reason of the first unindexed face, and is the fixed prefix followed
by the reasons joined by `, ` whenever that join is not empty; and when
`indexFace` returns, its `faceId`, `boundingBox` and `confidence` are those of
the first face record. -/
theorem indexFace_fails_iff_no_face_record (env : Env) (s3Key externalImageId : String)
    (w wE : World) (collectionId : String) (response : RekResponse)
    (hens : RekognitionService.ensureCollectionExists env
      (w.log (.call (.indexFace s3Key externalImageId))) = (.ok collectionId, wE))
    (hresp : env.rekognitionSend wE
      (.IndexFaces env.rekognitionCollectionId env.s3Bucket s3Key externalImageId 1) =
        .ok response) :
    ((∃ e w', RekognitionService.indexFace env s3Key externalImageId w = (.error e, w')) ↔
      (response.FaceRecords = none ∨ response.FaceRecords = some [])) ∧
    (∀ e w' u rest reasons,
      RekognitionService.indexFace env s3Key externalImageId w = (.error e, w') →
      response.UnindexedFaces = some (u :: rest) → u.Reasons = some reasons →
      (∀ r ∈ reasons, r.data <:+: e.message.data) ∧
      (", ".intercalate reasons ≠ "" →
        e.message = "Face could not be indexed: " ++ ", ".intercalate reasons)) ∧
    (∀ faceRecord rest, response.FaceRecords = some (faceRecord :: rest) →
      ∃ result w', RekognitionService.indexFace env s3Key externalImageId w = (.ok result, w') ∧
        result.faceId = faceRecord.Face.FaceId ∧
        result.boundingBox = faceRecord.Face.BoundingBox ∧
        result.confidence = faceRecord.Face.Confidence) := by
  have hrun := RekognitionService.indexFace_run env s3Key externalImageId w wE collectionId
    response hens hresp
  refine ⟨?_, ?_, ?_⟩
  · cases hrec : response.FaceRecords with
    | none =>
      simp only [hrec, Option.getD_none] at hrun
      simp only [true_or, iff_true]
      cases hun : response.UnindexedFaces.getD [] with
      | nil =>
        rw [hun] at hrun
        exact ⟨_, _, hrun⟩
      | cons u rest =>
        rw [hun] at hrun
        exact ⟨_, _, hrun⟩
    | some records =>
      cases records with
      | nil =>
        simp only [hrec, Option.getD_some] at hrun
        simp only [or_true, iff_true]
        cases hun : response.UnindexedFaces.getD [] with
        | nil =>
          rw [hun] at hrun
          exact ⟨_, _, hrun⟩
        | cons u rest =>
          rw [hun] at hrun
          exact ⟨_, _, hrun⟩
      | cons faceRecord rest =>
        simp only [hrec, Option.getD_some] at hrun
        constructor
        · rintro ⟨e, w', herr⟩
          rw [hrun] at herr
          simp at herr
        · rintro (h | h) <;> simp at h
  · intro e w' u rest reasons herr hun hreasons
    rw [hrun] at herr
    simp only [hun, Option.getD_some] at herr
    cases hrec : response.FaceRecords.getD [] with
    | cons faceRecord others =>
      rw [hrec] at herr
      simp at herr
    | nil =>
      rw [hrec] at herr
      simp only [Prod.mk.injEq, Except.error.injEq] at herr
      rw [← herr.1]
      refine ⟨unindexedMessage_contains u reasons hreasons, ?_⟩
      intro hne
      simp [JsError.new, RekognitionService.unindexedMessage, hreasons, truthyStr, hne]
  · intro faceRecord rest hrec
    simp only [hrec, Option.getD_some] at hrun
    exact ⟨_, _, hrun, rfl, rfl, rfl⟩

/-- C12 on a sample: the provider indexes no face and rejects the one it saw for
two reasons; the error names both. -/
theorem indexFace_fails_iff_no_face_record_witness :
    ∃ e w', RekognitionService.indexFace (sampleEnv rekRejectsFace s3Accepts)
        "faces/uuid-alice-7.jpg" "uuid" emptyWorld = (.error e, w') ∧
      e.message = "Face could not be indexed: LOW_SHARPNESS, EXTREME_POSE" := by
  obtain ⟨hfails, hmsg, _⟩ :=
    indexFace_fails_iff_no_face_record (sampleEnv rekRejectsFace s3Accepts)
      "faces/uuid-alice-7.jpg" "uuid" emptyWorld _ "faces"
      { FaceRecords := some []
        UnindexedFaces := some [{ Reasons := some ["LOW_SHARPNESS", "EXTREME_POSE"] }] }
      rfl rfl
  obtain ⟨e, w', herr⟩ := hfails.2 (Or.inr rfl)
  exact ⟨e, w', herr,
    (hmsg e w' _ [] ["LOW_SHARPNESS", "EXTREME_POSE"] herr rfl rfl).2 (by decide)⟩

/-! ## The response envelope -/

theorem M.Answers.ret_answer {r : Response} {P : Response → Bool} (h : P r = true) :
    (M.ret r).Answers P := by
  intro w r' w' hrun
  simp only [M.ret, Prod.mk.injEq, Except.ok.injEq] at hrun
  rw [← hrun.1]
  exact h

theorem M.Answers.andThen_answer {α : Type} {m : M α} {f : α → M Response}
    {P : Response → Bool} (hf : ∀ a, (f a).Answers P) : (M.andThen m f).Answers P := by
  intro w r w' hrun
  unfold M.andThen at hrun
  rcases hm : m w with ⟨res, w1⟩
  rw [hm] at hrun
  cases res with
  | ok a => exact hf a w1 r w' hrun
  | error e => simp at hrun

theorem M.Answers.tryCatch_answer {m : M Response} {f : JsError → M Response}
    {P : Response → Bool} (hm : m.Answers P) (hf : ∀ e, (f e).Answers P) :
    (M.tryCatch m f).Answers P := by
  intro w r w' hrun
  unfold M.tryCatch at hrun
  rcases hmw : m w with ⟨res, w1⟩
  rw [hmw] at hrun
  cases res with
  | ok a =>
    simp only [Prod.mk.injEq, Except.ok.injEq] at hrun
    rw [← hrun.1]
    exact hm w a w1 hmw
  | error e => exact hf e w1 r w' hrun

/-- A `try` whose `catch` block answers always answers. -/
theorem M.tryCatch_answers (m : M Response) (f : JsError → Response) (w : World) :
    ∃ r w', M.tryCatch m (fun e => M.ret (f e)) w = (.ok r, w') := by
  unfold M.tryCatch
  rcases hm : m w with ⟨res, w1⟩
  cases res with
  | ok a => exact ⟨a, w1, rfl⟩
  | error e => exact ⟨f e, w1, rfl⟩

theorem register_enveloped (env : Env) (req : RegisterRequest) :
    (register env req).Answers Response.enveloped := by
  unfold register
  simp only [M.bind_eq, M.pure_eq]
  refine M.Answers.tryCatch_answer ?_ (fun e => M.Answers.ret_answer (by rfl))
  split
  · exact M.Answers.ret_answer (by rfl)
  · split
    · exact M.Answers.ret_answer (by rfl)
    · split
      · exact M.Answers.ret_answer (by rfl)
      · refine M.Answers.andThen_answer (fun faces => ?_)
        split
        · exact M.Answers.ret_answer (by rfl)
        · split
          · exact M.Answers.ret_answer (by rfl)
          · refine M.Answers.andThen_answer (fun existingSearch => ?_)
            split
            · exact M.Answers.andThen_answer (fun _ => M.Answers.ret_answer (by rfl))
            · refine M.Answers.andThen_answer (fun faceId => ?_)
              refine M.Answers.andThen_answer (fun now => ?_)
              refine M.Answers.andThen_answer (fun s3Result => ?_)
              refine M.Answers.andThen_answer (fun rekognitionResult => ?_)
              exact M.Answers.andThen_answer (fun _ => M.Answers.ret_answer (by rfl))

theorem authenticate_enveloped (env : Env) (req : AuthenticateRequest) :
    (authenticate env req).Answers Response.enveloped := by
  unfold authenticate
  simp only [M.bind_eq, M.pure_eq]
  refine M.Answers.tryCatch_answer ?_ (fun e => M.Answers.ret_answer (by rfl))
  split
  · exact M.Answers.ret_answer (by rfl)
  · refine M.Answers.andThen_answer (fun searchResult => ?_)
    split
    · rename_i htruthy
      exact M.Answers.ret_answer (by simp [Response.enveloped, htruthy])
    · split
      · exact M.Answers.ret_answer (by rfl)
      · refine M.Answers.andThen_answer (fun user => ?_)
        split
        · exact M.Answers.ret_answer (by rfl)
        · exact M.Answers.ret_answer (by rfl)

theorem verify_enveloped (env : Env) (req : VerifyRequest) :
    (verify env req).Answers Response.enveloped := by
  unfold verify
  simp only [M.bind_eq, M.pure_eq]
  refine M.Answers.tryCatch_answer ?_ (fun e => M.Answers.ret_answer (by rfl))
  split
  · exact M.Answers.ret_answer (by rfl)
  · refine M.Answers.andThen_answer (fun user => ?_)
    split
    · exact M.Answers.ret_answer (by rfl)
    · refine M.Answers.andThen_answer (fun searchResult => ?_)
      split
      · rename_i htruthy
        exact M.Answers.ret_answer (by simp [Response.enveloped, htruthy])
      · split
        · exact M.Answers.ret_answer (by rfl)
        · exact M.Answers.ret_answer (by rfl)

theorem getUsers_enveloped (env : Env) (req : UsersRequest) :
    (getUsers env req).Answers Response.enveloped := by
  unfold getUsers
  simp only [M.bind_eq, M.pure_eq]
  refine M.Answers.tryCatch_answer ?_ (fun e => M.Answers.ret_answer (by rfl))
  refine M.Answers.andThen_answer (fun users => ?_)
  exact M.Answers.andThen_answer (fun totalCount => M.Answers.ret_answer (by rfl))

theorem getUser_enveloped (env : Env) (userId : String) :
    (getUser env userId).Answers Response.enveloped := by
  unfold getUser
  simp only [M.bind_eq, M.pure_eq]
  refine M.Answers.tryCatch_answer ?_ (fun e => M.Answers.ret_answer (by rfl))
  refine M.Answers.andThen_answer (fun user => ?_)
  split
  · exact M.Answers.ret_answer (by rfl)
  · exact M.Answers.ret_answer (by rfl)

theorem deleteUser_enveloped (env : Env) (userId : String) :
    (deleteUser env userId).Answers Response.enveloped := by
  unfold deleteUser
  simp only [M.bind_eq, M.pure_eq]
  refine M.Answers.tryCatch_answer ?_ (fun e => M.Answers.ret_answer (by rfl))
  refine M.Answers.andThen_answer (fun user => ?_)
  split
  · exact M.Answers.ret_answer (by rfl)
  · refine M.Answers.andThen_answer (fun _ => ?_)
    refine M.Answers.andThen_answer (fun _ => ?_)
    exact M.Answers.andThen_answer (fun _ => M.Answers.ret_answer (by rfl))

/-- What the envelope check says of a response. -/
theorem Response.enveloped_spec (r : Response) (h : r.enveloped = true) :
    (r.body.success = true ↔ 200 ≤ r.status ∧ r.status < 300) ∧
      (r.body.success = false → ∃ msg, r.body.error = some msg ∧ msg ≠ "") := by
  unfold Response.enveloped at h
  simp only [Bool.and_eq_true, beq_iff_eq, Bool.or_eq_true] at h
  obtain ⟨hsuccess, herror⟩ := h
  constructor
  · rw [hsuccess]
    simp
  · intro hfalse
    rw [hfalse] at herror
    rcases herror with hbad | htruthy
    · simp at hbad
    · cases herr : r.body.error with
      | none =>
        rw [herr] at htruthy
        simp [truthyStr] at htruthy
      | some msg =>
        rw [herr] at htruthy
        exact ⟨msg, rfl, by simpa [truthyStr] using htruthy⟩

/-- Every handler answers: no error leaves a route. -/
theorem handle_answers (env : Env) (route : Route) (w : World) :
    ∃ resp w', handle env route w = (.ok resp, w') := by
  cases route with
  | register req =>
    simp only [handle, register, M.pure_eq]
    exact M.tryCatch_answers _ _ w
  | authenticate req =>
    simp only [handle, authenticate, M.pure_eq]
    exact M.tryCatch_answers _ _ w
  | verify req =>
    simp only [handle, verify, M.pure_eq]
    exact M.tryCatch_answers _ _ w
  | users req =>
    simp only [handle, getUsers, M.pure_eq]
    exact M.tryCatch_answers _ _ w
  | user userId =>
    simp only [handle, getUser, M.pure_eq]
    exact M.tryCatch_answers _ _ w
  | deleteUser userId =>
    simp only [handle, deleteUser, M.pure_eq]
    exact M.tryCatch_answers _ _ w
  | health => exact ⟨_, _, rfl⟩
  | unmatched => exact ⟨_, _, rfl⟩

/-- Every response of a handler passes the envelope check. -/
theorem handle_enveloped (env : Env) (route : Route) :
    (handle env route).Answers Response.enveloped := by
  cases route with
  | register req => exact register_enveloped env req
  | authenticate req => exact authenticate_enveloped env req
  | verify req => exact verify_enveloped env req
  | users req => exact getUsers_enveloped env req
  | user userId => exact getUser_enveloped env userId
  | deleteUser userId => exact deleteUser_enveloped env userId
  | health =>
    simp only [handle, health, M.bind_eq, M.pure_eq]
    exact M.Answers.andThen_answer (fun _ => M.Answers.ret_answer (by rfl))
  | unmatched => exact M.Answers.ret_answer (by rfl)

/-- C13: every request to one of the seven face routes (register, authenticate,
verify, list users, get user, delete user, health) or to an unmatched route is
answered, and the answer's `success` field is true exactly when its status is
2xx, and an answer with `success: false` carries a non-empty `error` string. -/
theorem every_response_is_enveloped (env : Env) (route : Route) (w : World) :
    ∃ resp w', handle env route w = (.ok resp, w') ∧
      (resp.body.success = true ↔ 200 ≤ resp.status ∧ resp.status < 300) ∧
      (resp.body.success = false → ∃ msg, resp.body.error = some msg ∧ msg ≠ "") := by
  obtain ⟨resp, w', hrun⟩ := handle_answers env route w
  have henv := handle_enveloped env route w resp w' hrun
  exact ⟨resp, w', hrun, Response.enveloped_spec resp henv⟩

end FaceAWS
